import Mathlib

/-!
Verification development for the CFI flight-instructor monitoring core.

Shallow embedding of the Python sources under `cfi_ai/`:
numeric telemetry is modelled over `ℚ` (the code's floats are used as exact
decimal constants), optional fields as `Option`, dictionaries as association
lists, and the stateful components as explicit state-passing step functions.
-/

namespace CfiAi

/-- `FlightPhase` enum (types.py). -/
inductive FlightPhase where
  | PREFLIGHT
  | TAXI_OUT
  | TAKEOFF
  | INITIAL_CLIMB
  | CRUISE
  | DESCENT
  | APPROACH
  | LANDING
  | TAXI_IN
  deriving DecidableEq, Repr

open FlightPhase

/-- `FlightSnapshot` dataclass (types.py).  Field names follow the source;
`throttle` embeds `throttle_ratio`, `parkingBrake` embeds
`parking_brake_ratio`, `flap` embeds `flap_ratio`. -/
structure FlightSnapshot where
  timestampSec : ℚ
  latitudeDeg : Option ℚ := none
  longitudeDeg : Option ℚ := none
  elevationM : Option ℚ := none
  groundspeedMS : Option ℚ := none
  indicatedAirspeedKt : Option ℚ := none
  headingTrueDeg : Option ℚ := none
  magneticHeadingDeg : Option ℚ := none
  verticalSpeedFpm : Option ℚ := none
  rollDeg : Option ℚ := none
  pitchDeg : Option ℚ := none
  throttle : Option ℚ := none
  engineRunning : Option Bool := none
  engineRpm : Option ℚ := none
  flap : Option ℚ := none
  parkingBrake : Option ℚ := none
  com1Hz : Option Int := none
  onGround : Bool := false
  stallWarning : Bool := false
  deriving DecidableEq, Repr

instance : Inhabited FlightSnapshot := ⟨{ timestampSec := 0 }⟩

/-- `FlightSnapshot.agl_ft` (types.py): `(elevation - field) * 3.28084` when
both are known, else `None`. -/
def FlightSnapshot.aglFt (s : FlightSnapshot) (fieldElevationM : Option ℚ) : Option ℚ :=
  match s.elevationM, fieldElevationM with
  | some e, some f => some ((e - f) * 3.28084)
  | _, _ => none

/-- Groundspeed in knots: `(snapshot.groundspeed_m_s or 0.0) * 1.94384`. -/
def gsKtOf (s : FlightSnapshot) : ℚ := (s.groundspeedMS.getD 0) * 1.94384

/-- `snapshot.indicated_airspeed_kt or 0.0`. -/
def iasOf (s : FlightSnapshot) : ℚ := s.indicatedAirspeedKt.getD 0

/-- `snapshot.vertical_speed_fpm or 0.0`. -/
def vsOf (s : FlightSnapshot) : ℚ := s.verticalSpeedFpm.getD 0

/-- `snapshot.throttle_ratio or 0.0`. -/
def throttleOf (s : FlightSnapshot) : ℚ := s.throttle.getD 0

/-- `snapshot.parking_brake_ratio or 0.0`. -/
def parkOf (s : FlightSnapshot) : ℚ := s.parkingBrake.getD 0

/-- `PhaseState` dataclass (types.py). -/
structure PhaseState where
  phase : FlightPhase
  confidence : ℚ
  changed : Bool
  previousPhase : Option FlightPhase
  changedAtEpoch : Option ℚ := none
  deriving DecidableEq, Repr

/-- `DEFAULT_MIN_DWELL_SEC` (flight_phase.py). -/
def defaultMinDwellSec : FlightPhase → ℚ
  | .PREFLIGHT => 3.0
  | .TAXI_OUT => 3.0
  | .TAKEOFF => 2.0
  | .INITIAL_CLIMB => 3.0
  | .CRUISE => 5.0
  | .DESCENT => 4.0
  | .APPROACH => 3.0
  | .LANDING => 1.0
  | .TAXI_IN => 3.0

/-- `_TrackerState` dataclass (flight_phase.py) with its field defaults. -/
structure TrackerState where
  phase : FlightPhase := .PREFLIGHT
  phaseStartedAt : ℚ := 0.0
  candidate : FlightPhase := .PREFLIGHT
  candidateSince : ℚ := 0.0
  fieldElevationM : Option ℚ := none
  wasAirborne : Bool := false
  deriving DecidableEq, Repr

/-- Fresh tracker state (`FlightPhaseTracker.__init__`). -/
def initTrackerState : TrackerState := {}

/-- `FlightPhaseTracker._determine_candidate` (flight_phase.py lines 82-126),
evaluated on the tracker state as of the moment of the call. -/
def determineCandidate (s : TrackerState) (snap : FlightSnapshot) : FlightPhase :=
  let ias := iasOf snap
  let gsKt := gsKtOf snap
  let vs := vsOf snap
  let throttle := throttleOf snap
  let park := parkOf snap
  let aglFt := snap.aglFt s.fieldElevationM
  if snap.onGround then
    if s.wasAirborne then
      if gsKt > 40 ∨ ias > 45 then .LANDING else .TAXI_IN
    else if gsKt < 2 ∧ ias < 5 ∧ throttle < 0.2 ∧ park > 0.3 then .PREFLIGHT
    else if gsKt ≥ 35 ∧ ias ≥ 40 then .TAKEOFF
    else .TAXI_OUT
  else
    match aglFt with
    | none =>
      -- Fallback if no elevation baseline captured yet.
      if vs > 300 then .INITIAL_CLIMB
      else if vs < -300 then .DESCENT
      else .CRUISE
    | some agl =>
      if agl < 250 ∧ vs < -150 ∧ ias > 55 then .LANDING
      else if agl ≤ 2500 ∧ vs < -400 then .APPROACH
      else if vs > 300 ∧ agl < 3000 then .INITIAL_CLIMB
      else if vs < -300 ∧ agl > 2500 then .DESCENT
      else if |vs| < 400 ∧ agl ≥ 3000 then .CRUISE
      else if s.phase = .TAKEOFF ∨ s.phase = .INITIAL_CLIMB then .INITIAL_CLIMB
      else if s.phase = .APPROACH ∨ s.phase = .LANDING then .APPROACH
      else .CRUISE

/-- First part of `FlightPhaseTracker.update` (flight_phase.py lines 41-52):
the `phase_started_at <= 0` initialisation, the field-elevation capture, and
the `was_airborne` latch, performed before the candidate is determined. -/
def trackerAbsorb (s : TrackerState) (snap : FlightSnapshot) : TrackerState :=
  let s := if s.phaseStartedAt ≤ 0 then
      { s with phaseStartedAt := snap.timestampSec, candidateSince := snap.timestampSec }
    else s
  let s := if snap.onGround ∧ snap.elevationM.isSome ∧ gsKtOf snap < 25 then
      { s with fieldElevationM := snap.elevationM }
    else s
  if ¬snap.onGround ∧ iasOf snap ≥ 60 then { s with wasAirborne := true } else s

/-- The candidate phase computed inside `FlightPhaseTracker.update`
(flight_phase.py line 54). -/
def candidateOf (s : TrackerState) (snap : FlightSnapshot) : FlightPhase :=
  determineCandidate (trackerAbsorb s snap) snap

/-- State after the candidate bookkeeping of `FlightPhaseTracker.update`
(flight_phase.py lines 55-57): a changed candidate resets `candidate_since`. -/
def trackerMid (s : TrackerState) (snap : FlightSnapshot) : TrackerState :=
  let s1 := trackerAbsorb s snap
  let c := determineCandidate s1 snap
  if c ≠ s1.candidate then { s1 with candidate := c, candidateSince := snap.timestampSec }
  else s1

/-- `dwell = max(0.0, snapshot.timestamp_sec - self._s.candidate_since)`
(flight_phase.py line 60). -/
def dwellElapsed (s : TrackerState) (snap : FlightSnapshot) : ℚ :=
  max 0 (snap.timestampSec - (trackerMid s snap).candidateSince)

/-- `FlightPhaseTracker.update` (flight_phase.py lines 40-80), as a pure
function from tracker state and snapshot to the next state and the returned
`PhaseState`.  `dwellMap` embeds `self._min_dwell_sec` (total map; the
`.get(candidate, 3.0)` default is subsumed because `DEFAULT_MIN_DWELL_SEC`
is total over the enum). -/
def trackerUpdate (dwellMap : FlightPhase → ℚ) (s : TrackerState) (snap : FlightSnapshot) :
    TrackerState × PhaseState :=
  if candidateOf s snap ≠ (trackerMid s snap).phase ∧
      dwellElapsed s snap ≥ dwellMap (candidateOf s snap) then
    ({ trackerMid s snap with phase := candidateOf s snap, phaseStartedAt := snap.timestampSec },
     { phase := candidateOf s snap
       confidence := 1
       changed := true
       previousPhase := some (trackerMid s snap).phase
       changedAtEpoch := some snap.timestampSec })
  else
    (trackerMid s snap,
     { phase := (trackerMid s snap).phase
       confidence :=
         if candidateOf s snap = (trackerMid s snap).phase then 1
         else min 0.99 (dwellElapsed s snap / max 0.1 (dwellMap (candidateOf s snap)))
       changed := false
       previousPhase := none
       changedAtEpoch := none })

/-! ### Association-list helpers (embedding Python dicts) -/

/-- `d[k] = v` on an insertion-ordered dict: replace in place, else append. -/
def assocSet {α : Type} [DecidableEq α] {β : Type} :
    List (α × β) → α → β → List (α × β)
  | [], k, v => [(k, v)]
  | (k0, v0) :: rest, k, v =>
    if k0 = k then (k0, v) :: rest else (k0, v0) :: assocSet rest k v

/-! ### Speech sink (mcp_client.py, `McpSpeechSink`) -/

/-- Mutable state of `McpSpeechSink`: `_last_urgent_by_key`,
`_last_nonurgent_epoch`, `_last_urgent_epoch` (mcp_client.py lines 85-87). -/
structure SinkState where
  lastUrgentByKey : List (String × ℚ) := []
  lastNonurgentEpoch : ℚ := 0.0
  lastUrgentEpoch : ℚ := 0.0
  deriving DecidableEq, Repr

/-- Fresh sink state (`McpSpeechSink.__init__`). -/
def initSinkState : SinkState := {}

/-- Result of one `speak_urgent` / `speak_nonurgent` call: the boolean the
method returns, whether the downstream `self._mcp.speak` RPC was invoked,
and the sink state afterwards. -/
structure SpeakOutcome where
  returned : Bool
  calledSpeak : Bool
  state : SinkState
  deriving DecidableEq, Repr

/-- `McpSpeechSink.speak_urgent` (mcp_client.py lines 95-111) as a pure
function.  `now` stands for `time.time()`; `speakSuccess` is the oracle for
`result.get("success", False)` of the downstream RPC (consulted only when
the RPC is actually made). -/
def speakUrgent (urgentCooldownSec : ℚ) (dryRun : Bool) (st : SinkState)
    (now : ℚ) (key : String) (speakSuccess : Bool) : SpeakOutcome :=
  let last := (st.lastUrgentByKey.lookup key).getD 0
  if now - last < urgentCooldownSec then
    { returned := false, calledSpeak := false, state := st }
  else if dryRun then
    { returned := true, calledSpeak := false
      state := { st with lastUrgentByKey := assocSet st.lastUrgentByKey key now
                         lastUrgentEpoch := now } }
  else if speakSuccess then
    { returned := true, calledSpeak := true
      state := { st with lastUrgentByKey := assocSet st.lastUrgentByKey key now
                         lastUrgentEpoch := now } }
  else
    { returned := false, calledSpeak := true, state := st }

/-- `McpSpeechSink.speak_nonurgent` (mcp_client.py lines 113-126). -/
def speakNonurgent (nonurgentCooldownSec : ℚ) (dryRun : Bool) (st : SinkState)
    (now : ℚ) (speakSuccess : Bool) : SpeakOutcome :=
  if now - st.lastNonurgentEpoch < nonurgentCooldownSec then
    { returned := false, calledSpeak := false, state := st }
  else if dryRun then
    { returned := true, calledSpeak := false
      state := { st with lastNonurgentEpoch := now } }
  else if speakSuccess then
    { returned := true, calledSpeak := true
      state := { st with lastNonurgentEpoch := now } }
  else
    { returned := false, calledSpeak := true, state := st }

/-! ### Shutdown detection (runtime.py) -/

/-- `AIRBORNE_PHASES` (runtime.py lines 32-39). -/
def airbornePhases : List FlightPhase :=
  [.TAKEOFF, .INITIAL_CLIMB, .CRUISE, .DESCENT, .APPROACH, .LANDING]

/-- The airborne-latch condition of `_process_snapshot` (runtime.py line 280):
`(not snapshot.on_ground) or phase in AIRBORNE_PHASES`. -/
def airborneTick (phase : FlightPhase) (snap : FlightSnapshot) : Bool :=
  !snap.onGround || airbornePhases.contains phase

/-- `CfiRuntime._is_shutdown_candidate` (runtime.py lines 715-734); `phase`
is `self._phase_state.phase` at the time of the call. -/
def isShutdownCandidate (phase : FlightPhase) (snap : FlightSnapshot) : Bool :=
  if !snap.onGround then false
  else if ¬(phase = .TAXI_IN ∨ phase = .PREFLIGHT) then false
  else if gsKtOf snap > 2.0 ∨ iasOf snap > 8.0 ∨ throttleOf snap > 0.12 then false
  else
    match snap.engineRunning with
    | some running => !running
    | none =>
      match snap.engineRpm with
      | some rpm => decide (rpm ≤ 200.0)
      | none => decide (parkOf snap ≥ 0.5)

/-- The shutdown-relevant slice of the runtime state: the airborne latch
`_saw_airborne_segment`, the dwell anchor `_shutdown_candidate_since`, and
`_shutdown_debrief_emitted` (runtime.py lines 203-205). -/
structure ShutdownState where
  sawAirborne : Bool := false
  candidateSince : Option ℚ := none
  emitted : Bool := false
  deriving DecidableEq, Repr

/-- Initial shutdown-detection state (`CfiRuntime.__init__`). -/
def initShutdownState : ShutdownState := {}

/-- One processed snapshot of the shutdown-detection pipeline: the airborne
latch update of `_process_snapshot` (runtime.py lines 280-281) followed by
`_maybe_trigger_shutdown_debrief` (runtime.py lines 685-713).  The tick is
the snapshot paired with the phase produced by the tracker on that tick;
reaching the dwell marks `emitted` (the debrief path of
`_run_shutdown_debrief` sets `_shutdown_debrief_emitted = True`). -/
def shutdownStep (dwellSec : ℚ) (st : ShutdownState)
    (tick : FlightSnapshot × FlightPhase) : ShutdownState :=
  let st := { st with sawAirborne := st.sawAirborne || airborneTick tick.2 tick.1 }
  if st.emitted then st
  else if !st.sawAirborne then st
  else if !isShutdownCandidate tick.2 tick.1 then { st with candidateSince := none }
  else
    match st.candidateSince with
    | none => { st with candidateSince := some tick.1.timestampSec }
    | some t0 =>
      if tick.1.timestampSec - t0 < dwellSec then st
      else { st with emitted := true }

/-- The shutdown pipeline over a whole sequence of processed ticks. -/
def runShutdown (dwellSec : ℚ) (st : ShutdownState)
    (ticks : List (FlightSnapshot × FlightPhase)) : ShutdownState :=
  ticks.foldl (shutdownStep dwellSec) st

/-- Tick at position `n` of a processed sequence (default-padded). -/
def tickAt (ticks : List (FlightSnapshot × FlightPhase)) (n : ℕ) :
    FlightSnapshot × FlightPhase :=
  ticks.getD n (default, .PREFLIGHT)

/-- Spec-side reading of the shutdown-dwell condition: some window of
processed ticks `j..i` consists solely of shutdown candidates, airborne was
seen by tick `j`, and the window spans at least `dwellSec` seconds. -/
def shutdownHeldFor (dwellSec : ℚ)
    (ticks : List (FlightSnapshot × FlightPhase)) : Prop :=
  ∃ i j : ℕ, j < i ∧ i < ticks.length ∧
    (∃ k, k ≤ j ∧ airborneTick (tickAt ticks k).2 (tickAt ticks k).1 = true) ∧
    (∀ m, j ≤ m → m ≤ i → isShutdownCandidate (tickAt ticks m).2 (tickAt ticks m).1 = true) ∧
    dwellSec ≤ (tickAt ticks i).1.timestampSec - (tickAt ticks j).1.timestampSec

/-! ### Flight-cycle reset and snapshot processing (runtime.py) -/

/-- `CfiRuntime._is_new_flight_activity` (runtime.py lines 761-786). -/
def isNewFlightActivity (snap : FlightSnapshot) : Bool :=
  let gsKt := gsKtOf snap
  let ias := iasOf snap
  let throttle := throttleOf snap
  let parkingBrake := parkOf snap
  let engineOn :=
    match snap.engineRunning with
    | some running => running
    | none =>
      match snap.engineRpm with
      | some rpm => decide (rpm > 500.0)
      | none => false
  if !snap.onGround then true
  else if !engineOn then false
  else if throttle > 0.22 then true
  else if gsKt > 3.0 then true
  else if ias > 10.0 then true
  else if parkingBrake < 0.2 ∧ gsKt > 1.5 then true
  else false

/-- The slice of `CfiRuntime` state that the snapshot-processing path reads
and writes (runtime.py lines 178-206): the phase tracker, the last
`PhaseState`, the session snapshot buffer, the airborne latch, the shutdown
dwell anchor and flag, and `_flight_index`. -/
structure RuntimeState where
  tracker : TrackerState
  phaseState : PhaseState
  sessionSnapshots : List FlightSnapshot
  sawAirborne : Bool
  shutdownCandidateSince : Option ℚ
  shutdownDebriefEmitted : Bool
  flightIndex : ℕ
  deriving DecidableEq, Repr

/-- The `PhaseState` the runtime starts with (runtime.py lines 191-197). -/
def initPhaseState : PhaseState :=
  { phase := .PREFLIGHT, confidence := 0.0, changed := false
    previousPhase := none, changedAtEpoch := none }

/-- Runtime state at `CfiRuntime.__init__`. -/
def initRuntimeState : RuntimeState :=
  { tracker := initTrackerState
    phaseState := initPhaseState
    sessionSnapshots := []
    sawAirborne := false
    shutdownCandidateSince := none
    shutdownDebriefEmitted := false
    flightIndex := 1 }

/-- `CfiRuntime._reset_flight_cycle_state` (runtime.py lines 788-804)
restricted to the modelled slice. -/
def resetFlightCycleState (st : RuntimeState) : RuntimeState :=
  { st with
    tracker := initTrackerState
    phaseState := initPhaseState
    sessionSnapshots := []
    sawAirborne := false
    shutdownCandidateSince := none
    shutdownDebriefEmitted := false }

/-- `CfiRuntime._maybe_start_new_flight_cycle` (runtime.py lines 736-759). -/
def maybeStartNewFlightCycle (st : RuntimeState) (snap : FlightSnapshot) : RuntimeState :=
  if !st.shutdownDebriefEmitted then st
  else if !isNewFlightActivity snap then st
  else resetFlightCycleState { st with flightIndex := st.flightIndex + 1 }

/-- The shutdown-detection slice of a `RuntimeState`. -/
def RuntimeState.shutdown (st : RuntimeState) : ShutdownState :=
  { sawAirborne := st.sawAirborne
    candidateSince := st.shutdownCandidateSince
    emitted := st.shutdownDebriefEmitted }

/-- `CfiRuntime._process_snapshot` (runtime.py lines 272-343) restricted to
the modelled state: flight-cycle check, session-buffer append with the
100 000 cap, phase-tracker update, airborne latch, and shutdown detection
(the hazard/speech dispatch touches none of the modelled fields).  The
runtime's tracker uses the default dwell map (`FlightPhaseTracker()`). -/
def processSnapshot (shutdownDwellSec : ℚ) (st : RuntimeState)
    (snap : FlightSnapshot) : RuntimeState :=
  let st := maybeStartNewFlightCycle st snap
  let buf := st.sessionSnapshots ++ [snap]
  let buf := if buf.length > 100000 then buf.drop (buf.length - 100000) else buf
  let trps := trackerUpdate defaultMinDwellSec st.tracker snap
  let st := { st with tracker := trps.1, phaseState := trps.2, sessionSnapshots := buf }
  let sh := shutdownStep shutdownDwellSec st.shutdown (snap, trps.2.phase)
  { st with
    sawAirborne := sh.sawAirborne
    shutdownCandidateSince := sh.candidateSince
    shutdownDebriefEmitted := sh.emitted }

/-! ### Review-window builder (review_window.py) -/

/-- `ReviewWindow` dataclass (types.py); `metrics` keeps the dict's
insertion order. -/
structure ReviewWindow where
  startEpoch : ℚ
  endEpoch : ℚ
  phase : FlightPhase
  sampleCount : ℕ
  metrics : List (String × ℚ)
  eventHints : List String
  deriving DecidableEq, Repr

/-- Python's `min(list)` on a nonempty list (left fold), `none` on `[]`. -/
def listMinQ : List ℚ → Option ℚ
  | [] => none
  | x :: xs => some (xs.foldl min x)

/-- Python's `max(list)` on a nonempty list (left fold), `none` on `[]`. -/
def listMaxQ : List ℚ → Option ℚ
  | [] => none
  | x :: xs => some (xs.foldl max x)

/-- `statistics.fmean`: the arithmetic mean, exact over `ℚ`. -/
def fmeanQ (l : List ℚ) : ℚ := l.sum / l.length

/-- The field-elevation learning loop of `ReviewWindowBuilder.build`
(review_window.py lines 16-19). -/
def updateFieldElevation (fe : Option ℚ) (snapshots : List FlightSnapshot) : Option ℚ :=
  snapshots.foldl
    (fun fe s =>
      if s.onGround ∧ s.elevationM.isSome ∧ gsKtOf s < 25 then s.elevationM else fe)
    fe

/-- `ias_values` (review_window.py line 21). -/
def iasValuesOf (snapshots : List FlightSnapshot) : List ℚ :=
  snapshots.filterMap (·.indicatedAirspeedKt)

/-- `vs_values` (review_window.py line 22). -/
def vsValuesOf (snapshots : List FlightSnapshot) : List ℚ :=
  snapshots.filterMap (·.verticalSpeedFpm)

/-- `roll_values` (review_window.py line 23): absolute roll where present. -/
def rollValuesOf (snapshots : List FlightSnapshot) : List ℚ :=
  snapshots.filterMap (fun s => s.rollDeg.map abs)

/-- `agl_values` (review_window.py lines 24-28), using the builder's learned
field elevation. -/
def aglValuesOf (fe : Option ℚ) (snapshots : List FlightSnapshot) : List ℚ :=
  snapshots.filterMap (·.aglFt fe)

/-- `ReviewWindowBuilder.build` (review_window.py lines 12-58) as a pure
function: takes the builder's `_field_elevation_m`, returns the window and
the updated field elevation, or the `ValueError` message on empty input. -/
def reviewBuild (fieldElevationM : Option ℚ) (snapshots : List FlightSnapshot)
    (phase : FlightPhase) : Except String (ReviewWindow × Option ℚ) :=
  if snapshots.isEmpty then
    .error "Cannot build review window from an empty snapshot list."
  else
    let fe := updateFieldElevation fieldElevationM snapshots
    let iasValues := iasValuesOf snapshots
    let vsValues := vsValuesOf snapshots
    let rollValues := rollValuesOf snapshots
    let aglValues := aglValuesOf fe snapshots
    let iasMin := (listMinQ iasValues).getD 0
    let iasMax := (listMaxQ iasValues).getD 0
    let vsMean := if vsValues.isEmpty then 0 else fmeanQ vsValues
    let vsMin := (listMinQ vsValues).getD 0
    let vsMax := (listMaxQ vsValues).getD 0
    let rollAbsMax := (listMaxQ rollValues).getD 0
    let aglMin := (listMinQ aglValues).getD 0
    let aglMax := (listMaxQ aglValues).getD 0
    let metrics : List (String × ℚ) :=
      [("ias_min_kt", iasMin), ("ias_max_kt", iasMax),
       ("vs_mean_fpm", vsMean), ("vs_min_fpm", vsMin), ("vs_max_fpm", vsMax),
       ("roll_abs_max_deg", rollAbsMax),
       ("agl_min_ft", aglMin), ("agl_max_ft", aglMax)]
    let hints : List String :=
      (if (phase = .APPROACH ∨ phase = .LANDING) ∧ iasMax > 95 then
        ["Approach speed appears high for primary GA profile."] else []) ++
      (if (phase = .TAKEOFF ∨ phase = .INITIAL_CLIMB) ∧ iasMin < 55 then
        ["Low airspeed observed during takeoff/climb segment."] else []) ++
      (if rollAbsMax > 35 then
        ["Steep bank observed; coach smoother bank discipline."] else []) ++
      (if aglMin < 1000 ∧ vsMin < -1000 then
        ["High sink near ground seen in this window."] else [])
    .ok
      ({ startEpoch := (snapshots.headD default).timestampSec
         endEpoch := (snapshots.getLastD default).timestampSec
         phase := phase
         sampleCount := snapshots.length
         metrics := metrics
         eventHints := hints }, fe)

/-- The guard of `CfiRuntime._run_nonurgent_review` (runtime.py lines
345-350): an empty telemetry window skips the review cycle (`none`) and
`build` is invoked only otherwise. -/
def runNonurgentReviewWindow (fieldElevationM : Option ℚ)
    (windowSnapshots : List FlightSnapshot) (phase : FlightPhase) :
    Option (Except String (ReviewWindow × Option ℚ)) :=
  if windowSnapshots.isEmpty then none
  else some (reviewBuild fieldElevationM windowSnapshots phase)

/-! ### Phrase normalization (hazard_monitor.py) -/

/-- Python whitespace as matched by `str.strip()` and `\s` (ASCII range). -/
def isPySpace (c : Char) : Bool :=
  c = ' ' ∨ c = '\t' ∨ c = '\n' ∨ c = '\x0d' ∨ c = '\x0b' ∨ c = '\x0c'

/-- `str.strip()`: drop leading and trailing whitespace. -/
def stripChars (l : List Char) : List Char :=
  ((l.dropWhile isPySpace).reverse.dropWhile isPySpace).reverse

/-- `re.sub(r"\s+", " ", value)`: each maximal whitespace run becomes one
space (a run contributes its single space when its last character is
reached). -/
def collapseWs : List Char → List Char
  | [] => []
  | [c] => if isPySpace c then [' '] else [c]
  | c1 :: c2 :: rest =>
    if isPySpace c1 then
      if isPySpace c2 then collapseWs (c2 :: rest)
      else ' ' :: collapseWs (c2 :: rest)
    else c1 :: collapseWs (c2 :: rest)

/-- `str.rstrip(" ,;:-")`. -/
def rstripPunct (l : List Char) : List Char :=
  (l.reverse.dropWhile (fun c => [' ', ',', ';', ':', '-'].contains c)).reverse

/-- `head.rfind(" ")`: index of the last space, if any. -/
def rfindSpace (l : List Char) : Option ℕ :=
  (l.reverse.findIdx? (· = ' ')).map (fun i => l.length - 1 - i)

/-- `_truncate_text` (hazard_monitor.py lines 274-283).  The Python
boundary threshold `int(max_chars * 0.6)` is embedded as `3 * maxChars / 5`,
which coincides with the double-precision computation at the call site
(`maxChars = 180` gives 108). -/
def truncateText (text : List Char) (maxChars : ℕ) : List Char :=
  if maxChars = 0 ∨ text.length ≤ maxChars then text
  else
    let head := text.take (maxChars + 1)
    let head :=
      match rfindSpace head with
      | some boundary =>
        if boundary ≥ 3 * maxChars / 5 then head.take boundary
        else text.take maxChars
      | none => text.take maxChars
    rstripPunct head

/-- `_normalize_phrase` (hazard_monitor.py lines 262-271) on character
lists. -/
def normalizePhraseCore (text : List Char) : List Char :=
  let value := stripChars text
  if value.isEmpty then []
  else
    let value := collapseWs value
    let value := if value.length > 180 then truncateText value 180 else value
    if ¬value.isEmpty ∧ ¬(['.', '!', '?'].contains (value.getLastD ' ')) then
      value ++ ['.']
    else value

/-- `_normalize_phrase` on strings. -/
def normalizePhrase (s : String) : String := ⟨normalizePhraseCore s.data⟩

/-! ### Hazard monitor (hazard_monitor.py) -/

/-- `HazardAlert` dataclass (types.py). -/
structure HazardAlert where
  alertId : String
  severity : String
  message : String
  speakText : String
  cooldownSec : ℚ
  triggeredAtEpoch : ℚ
  deriving DecidableEq, Repr

/-- `HazardProfile` dataclass (types.py) with its default field factories. -/
structure HazardProfile where
  enabledRules : List String :=
    ["stall_or_low_speed", "excessive_sink_low_alt", "high_bank_low_alt",
     "pull_up_now", "excessive_taxi_speed", "unstable_approach_fast_or_sink"]
  thresholds : List (String × ℚ) :=
    [("low_airspeed_kt", 50.0), ("low_airspeed_min_agl_ft", 100.0),
     ("excessive_sink_fpm", -1500.0), ("excessive_sink_max_agl_ft", 1000.0),
     ("high_bank_deg", 45.0), ("high_bank_max_agl_ft", 1000.0),
     ("pull_up_fpm", -1000.0), ("pull_up_max_agl_ft", 300.0),
     ("max_taxi_speed_kt", 30.0), ("max_taxi_ias_kt", 35.0),
     ("unstable_approach_max_ias_kt", 95.0),
     ("unstable_approach_min_sink_fpm", -1000.0),
     ("unstable_approach_max_agl_ft", 1000.0),
     ("taxi_takeoff_roll_throttle_ratio", 0.65),
     ("taxi_takeoff_roll_ias_kt", 35.0), ("taxi_takeoff_roll_gs_kt", 30.0),
     ("taxi_in_rollout_clear_gs_kt", 25.0),
     ("taxi_in_rollout_clear_ias_kt", 30.0)]
  speechVariants : List (String × List String) :=
    [("stall_or_low_speed",
      ["Airspeed critical. Lower the nose and add power now.",
       "Watch your energy. Reduce pitch and add power immediately.",
       "Low airspeed. Recover now with pitch and power."]),
     ("excessive_sink_low_alt",
      ["Sink rate. Reduce descent and stabilize immediately.",
       "High sink near the ground. Add power and arrest descent.",
       "Descent is too high. Stabilize vertical speed now."]),
     ("high_bank_low_alt",
      ["Bank angle. Roll wings level and stabilize the approach.",
       "Steep bank low altitude. Level the wings now.",
       "Too much bank close to ground. Reduce bank and stabilize."]),
     ("pull_up_now",
      ["Pull up. Arrest descent now.",
       "Terrain risk. Pull up and recover immediately.",
       "Descent unsafe near ground. Pitch up now."]),
     ("excessive_taxi_speed",
      ["Slow down taxi speed now and regain full directional control.",
       "Taxi too fast. Reduce speed and maintain centerline.",
       "Ease off speed on taxi. Keep control and spacing."]),
     ("unstable_approach_fast_or_sink",
      ["Unstable approach. Correct now or execute a go-around.",
       "Approach not stabilized. Fix speed and sink or go around.",
       "Profile unstable. Stabilize immediately or go around."])]
  notes : List String := []
  deriving DecidableEq, Repr

/-- The default `HazardProfile()` the runtime starts with. -/
def defaultHazardProfile : HazardProfile := {}

/-- `HazardMonitor._threshold` (hazard_monitor.py lines 202-207). -/
def thresholdOf (p : HazardProfile) (name : String) (fallback : ℚ) : ℚ :=
  (p.thresholds.lookup name).getD fallback

/-- `HazardMonitor._enabled` (hazard_monitor.py lines 199-200). -/
def ruleEnabled (p : HazardProfile) (ruleName : String) : Bool :=
  p.enabledRules.contains ruleName

/-- The cleaned variant list of `_speak_for` (hazard_monitor.py lines
242-247): normalize each raw variant and keep the non-empty results. -/
def cleanedVariants (p : HazardProfile) (alertId : String) : List String :=
  ((p.speechVariants.lookup alertId).getD []).filterMap
    (fun item => let text := normalizePhrase item
                 if text = "" then none else some text)

/-- `HazardMonitor._speak_for` (hazard_monitor.py lines 241-259).
`lastVariantIdx` embeds `self._last_variant_idx`; `draw` is the oracle for
`self._rng.randrange(len(variants))` (in range when the caller's stream
is). -/
def speakFor (p : HazardProfile) (lastVariantIdx : List (String × ℕ))
    (alertId fallback : String) (draw : ℕ) : String × List (String × ℕ) :=
  let variants := cleanedVariants p alertId
  if variants.isEmpty then
    (let nf := normalizePhrase fallback
     if nf = "" then fallback else nf, lastVariantIdx)
  else if variants.length = 1 then
    (variants.headD "", assocSet lastVariantIdx alertId 0)
  else
    let idx :=
      match lastVariantIdx.lookup alertId with
      | some prev => if draw = prev then (draw + 1) % variants.length else draw
      | none => draw
    (variants.getD idx "", assocSet lastVariantIdx alertId idx)

/-- `_speak_for` iterated over a stream of random draws for one rule,
collecting the spoken texts (consecutive firings of the same rule). -/
def speakForSeq (p : HazardProfile) (lastVariantIdx : List (String × ℕ))
    (alertId fallback : String) : List ℕ → List String × List (String × ℕ)
  | [] => ([], lastVariantIdx)
  | d :: rest =>
    let (text, l1) := speakFor p lastVariantIdx alertId fallback d
    let (texts, l2) := speakForSeq p l1 alertId fallback rest
    (text :: texts, l2)

/-- Mutable state of `HazardMonitor`: `_field_elevation_m`,
`_last_variant_idx`, `_taxi_in_rollout_cleared`, plus the stream of pending
`randrange` draws of `self._rng` (each `_speak_for` call consumes one). -/
structure MonitorState where
  fieldElevationM : Option ℚ := none
  lastVariantIdx : List (String × ℕ) := []
  taxiInRolloutCleared : Bool := false
  draws : List ℕ := []
  deriving DecidableEq, Repr

/-- Consume the next rng draw. -/
def drawNext (st : MonitorState) : ℕ × MonitorState :=
  (st.draws.headD 0, { st with draws := st.draws.tail })

/-- `HazardMonitor._is_takeoff_ground_roll` (hazard_monitor.py lines
234-239). -/
def isTakeoffGroundRoll (p : HazardProfile) (snap : FlightSnapshot)
    (gsKt ias : ℚ) : Bool :=
  let throttle := throttleOf snap
  let thrTakeoff := thresholdOf p "taxi_takeoff_roll_throttle_ratio" 0.65
  let iasTakeoff := thresholdOf p "taxi_takeoff_roll_ias_kt" 35.0
  let gsTakeoff := thresholdOf p "taxi_takeoff_roll_gs_kt" 30.0
  decide (throttle ≥ thrTakeoff) && (decide (ias ≥ iasTakeoff) || decide (gsKt ≥ gsTakeoff))

/-- `HazardMonitor._should_monitor_taxi_speed` (hazard_monitor.py lines
209-232): returns the decision and the updated
`_taxi_in_rollout_cleared`. -/
def shouldMonitorTaxiSpeed (p : HazardProfile) (cleared : Bool)
    (snap : FlightSnapshot) (ps : PhaseState) (gsKt ias : ℚ) : Bool × Bool :=
  let phase := ps.phase
  if ¬(phase = .TAXI_OUT ∨ phase = .TAXI_IN) then (false, cleared)
  else if phase = .TAXI_OUT ∧ isTakeoffGroundRoll p snap gsKt ias then (false, cleared)
  else if phase = .TAXI_IN ∧ ¬cleared then
    let clearGs := thresholdOf p "taxi_in_rollout_clear_gs_kt" 25.0
    let clearIas := thresholdOf p "taxi_in_rollout_clear_ias_kt" 30.0
    if gsKt ≤ clearGs ∧ ias ≤ clearIas then (true, true)
    else (false, cleared)
  else (true, cleared)

/-- Append one fired alert, consuming a draw for its speech variant
(one `alerts.append(HazardAlert(...))` of `HazardMonitor.evaluate`). -/
def hazardFire (p : HazardProfile) (urgentCooldownSec now : ℚ)
    (acc : List HazardAlert × MonitorState)
    (aid sev msg fallback : String) : List HazardAlert × MonitorState :=
  let (alerts, st) := acc
  let (d, st) := drawNext st
  let (text, lvi) := speakFor p st.lastVariantIdx aid fallback d
  (alerts ++
    [{ alertId := aid, severity := sev, message := msg, speakText := text
       cooldownSec := urgentCooldownSec, triggeredAtEpoch := now }],
   { st with lastVariantIdx := lvi })

/-- The two state updates at the head of `HazardMonitor.evaluate`
(hazard_monitor.py lines 54-57): the airborne reset of
`_taxi_in_rollout_cleared` and the field-elevation capture. -/
def monitorAbsorb (st : MonitorState) (snap : FlightSnapshot) : MonitorState :=
  let st := if !snap.onGround then { st with taxiInRolloutCleared := false } else st
  if snap.onGround ∧ snap.elevationM.isSome ∧ gsKtOf snap < 25 then
    { st with fieldElevationM := snap.elevationM }
  else st

/-- `HazardMonitor.evaluate` (hazard_monitor.py lines 49-197) as a pure
function over the monitor state (with `p` the active hazard profile). -/
def hazardEvaluate (p : HazardProfile) (urgentCooldownSec : ℚ)
    (st0 : MonitorState) (snap : FlightSnapshot) (ps : PhaseState) :
    List HazardAlert × MonitorState :=
  let now := snap.timestampSec
  let gsKt := gsKtOf snap
  let st := monitorAbsorb st0 snap
  let ias := iasOf snap
  let vs := vsOf snap
  let bankAbs := |snap.rollDeg.getD 0|
  let aglFt := snap.aglFt st.fieldElevationM
  if snap.onGround then
    if ruleEnabled p "excessive_taxi_speed" then
      let mc := shouldMonitorTaxiSpeed p st.taxiInRolloutCleared snap ps gsKt ias
      let st := { st with taxiInRolloutCleared := mc.2 }
      if !mc.1 then ([], st)
      else
        let maxTaxiSpeed := thresholdOf p "max_taxi_speed_kt" 30.0
        let maxTaxiIas := thresholdOf p "max_taxi_ias_kt" 35.0
        if gsKt > maxTaxiSpeed ∨ ias > maxTaxiIas then
          hazardFire p urgentCooldownSec now ([], st)
            "excessive_taxi_speed" "warning" "Taxi speed exceeds configured limit."
            "Slow down taxi speed now and regain full directional control."
        else ([], st)
    else ([], st)
  else
    let aglAboveOrNone : ℚ → Bool := fun thr =>
      match aglFt with
      | none => true
      | some a => decide (a > thr)
    let aglBelow : ℚ → Bool := fun thr =>
      match aglFt with
      | none => false
      | some a => decide (a < thr)
    let acc : List HazardAlert × MonitorState := ([], st)
    let acc :=
      if ruleEnabled p "stall_or_low_speed" &&
          (snap.stallWarning ||
            (decide (ias < thresholdOf p "low_airspeed_kt" 50.0) &&
             aglAboveOrNone (thresholdOf p "low_airspeed_min_agl_ft" 100.0))) then
        hazardFire p urgentCooldownSec now acc
          "stall_or_low_speed" "critical" "Low energy / stall risk detected."
          "Airspeed critical. Lower the nose and add power now."
      else acc
    let acc :=
      if ruleEnabled p "excessive_sink_low_alt" &&
          aglBelow (thresholdOf p "excessive_sink_max_agl_ft" 1000.0) &&
          decide (vs < thresholdOf p "excessive_sink_fpm" (-1500.0)) then
        hazardFire p urgentCooldownSec now acc
          "excessive_sink_low_alt" "critical" "Excessive sink rate at low altitude."
          "Sink rate. Reduce descent and stabilize immediately."
      else acc
    let acc :=
      if ruleEnabled p "high_bank_low_alt" &&
          aglBelow (thresholdOf p "high_bank_max_agl_ft" 1000.0) &&
          decide (bankAbs > thresholdOf p "high_bank_deg" 45.0) then
        hazardFire p urgentCooldownSec now acc
          "high_bank_low_alt" "critical" "High bank angle at low altitude."
          "Bank angle. Roll wings level and stabilize the approach."
      else acc
    let acc :=
      if ruleEnabled p "pull_up_now" &&
          aglBelow (thresholdOf p "pull_up_max_agl_ft" 300.0) &&
          decide (vs < thresholdOf p "pull_up_fpm" (-1000.0)) then
        hazardFire p urgentCooldownSec now acc
          "pull_up_now" "critical" "Impact risk: very high descent close to ground."
          "Pull up. Arrest descent now."
      else acc
    let acc :=
      if ruleEnabled p "unstable_approach_fast_or_sink" &&
          decide (ps.phase = .APPROACH ∨ ps.phase = .LANDING) &&
          aglBelow (thresholdOf p "unstable_approach_max_agl_ft" 1000.0) &&
          (decide (ias > thresholdOf p "unstable_approach_max_ias_kt" 95.0) ||
           decide (vs < thresholdOf p "unstable_approach_min_sink_fpm" (-1000.0))) then
        hazardFire p urgentCooldownSec now acc
          "unstable_approach_fast_or_sink" "critical" "Approach stability limits exceeded."
          "Unstable approach. Correct now or execute a go-around."
      else acc
    acc

/-! ### UDP protocol codec (xplane_udp.py) -/

/-- `RREF_REQUEST_HEADER = b"RREF\x00"`. -/
def rrefRequestHeader : List ℕ := [82, 82, 69, 70, 0]

/-- `RREF_RESPONSE_PREFIX = b"RREF,"`. -/
def rrefResponseHeader : List ℕ := [82, 82, 69, 70, 44]

/-- Little-endian 4-byte encoding of a 32-bit word (`struct.pack` `<I`
digit layout shared by `<i` and `<f` at the byte level). -/
def le4 (n : ℕ) : List ℕ :=
  [n % 256, n / 256 % 256, n / 65536 % 256, n / 16777216 % 256]

/-- The 32-bit word denoted by 4 little-endian bytes. -/
def decNat32 (b : List ℕ) : ℕ :=
  b.getD 0 0 + 256 * b.getD 1 0 + 65536 * b.getD 2 0 + 16777216 * b.getD 3 0

/-- `struct.pack("<i", i)`: two's-complement little-endian int32 bytes. -/
def encInt32 (i : Int) : List ℕ := le4 (i % 4294967296).toNat

/-- `struct.unpack("<i", b)`: the signed value of 4 little-endian bytes. -/
def decInt32 (b : List ℕ) : Int :=
  let n := decNat32 b
  if n < 2147483648 then (n : Int) else (n : Int) - 4294967296

/-- `build_rref_request_packet` (xplane_udp.py lines 48-52) on byte lists.
`dataref` is the byte sequence of the dataref string;
`.encode("ascii", errors="ignore")` keeps the bytes below 128, `[:399]`
truncates, then a NUL is appended and the payload is left-justified to 400
with NULs, and the frame is packed as `<5sii400s`. -/
def buildRRefRequestPacket (freqHz index : Int) (dataref : List ℕ) : List ℕ :=
  let encoded := (dataref.filter (· < 128)).take 399
  let payload := encoded ++ [0]
  let payload := payload ++ List.replicate (400 - payload.length) 0
  rrefRequestHeader ++ encInt32 freqHz ++ encInt32 index ++ payload

/-- Modelled from the spec: unpacking the request layout
`[5-byte header][int32 freq][int32 index][400-byte null-padded name]`
(spec section 4.A, claim C6); the name is read up to its NUL terminator. -/
def unpackRRefRequest (packet : List ℕ) : List ℕ × Int × Int × List ℕ :=
  (packet.take 5,
   decInt32 ((packet.drop 5).take 4),
   decInt32 ((packet.drop 9).take 4),
   ((packet.drop 13).take 400).takeWhile (· ≠ 0))

/-- Modelled from the spec: the response datagram builder (spec section
4.A: prefix `"RREF,"` followed by packed 8-byte little-endian
`[int32 index][float32 value]` records); the float32 value is carried as
its 32-bit pattern. -/
def buildRRefResponseDatagram (entries : List (Int × ℕ)) : List ℕ :=
  rrefResponseHeader ++ entries.flatMap (fun e => encInt32 e.1 ++ le4 e.2)

/-- The record loop of `parse_rref_datagram` (xplane_udp.py lines 59-67):
consume 8-byte chunks, entering each `(index, value)` into the dict
(trailing bytes shorter than a record are ignored, as `len(body) // 8`
does). -/
def parseRRefEntries : List ℕ → List (Int × ℕ) → List (Int × ℕ)
  | b0 :: b1 :: b2 :: b3 :: b4 :: b5 :: b6 :: b7 :: rest, out =>
    parseRRefEntries rest
      (assocSet out (decInt32 [b0, b1, b2, b3]) (decNat32 [b4, b5, b6, b7]))
  | _, out => out

/-- `parse_rref_datagram` (xplane_udp.py lines 55-67): empty map unless the
payload starts with `"RREF,"`; values are kept as float32 bit patterns. -/
def parseRRefDatagram (payload : List ℕ) : List (Int × ℕ) :=
  if payload.take 5 = rrefResponseHeader then
    parseRRefEntries (payload.drop 5) []
  else []

/-! ## Theorems -/

/-- The candidate bookkeeping of `update` never touches the confirmed
phase. -/
theorem trackerMid_phase (s : TrackerState) (snap : FlightSnapshot) :
    (trackerMid s snap).phase = s.phase := by
  unfold trackerMid trackerAbsorb
  dsimp only
  split <;> split <;> split <;> split <;> rfl

/-- Claim C1: `PhaseState.changed` is true exactly on the tick where the
confirmed phase moves (and then `previous_phase` records the old phase),
and a candidate that differs from the confirmed phase but whose dwell is
still strictly below its required minimum leaves the confirmed phase
unchanged (anti-flap), for every tracker state, i.e. along every sequence
of snapshots fed to `FlightPhaseTracker.update`. -/
theorem trackerUpdate_changed_iff_and_antiflap (dwellMap : FlightPhase → ℚ)
    (s : TrackerState) (snap : FlightSnapshot) :
    ((trackerUpdate dwellMap s snap).2.changed = true ↔
      (trackerUpdate dwellMap s snap).1.phase ≠ s.phase) ∧
    ((trackerUpdate dwellMap s snap).2.changed = true →
      (trackerUpdate dwellMap s snap).2.previousPhase = some s.phase) ∧
    (candidateOf s snap ≠ s.phase →
      dwellElapsed s snap < dwellMap (candidateOf s snap) →
      (trackerUpdate dwellMap s snap).1.phase = s.phase ∧
        (trackerUpdate dwellMap s snap).2.changed = false) := by
  have hphase : (trackerMid s snap).phase = s.phase := trackerMid_phase s snap
  by_cases hcond : candidateOf s snap ≠ (trackerMid s snap).phase ∧
      dwellElapsed s snap ≥ dwellMap (candidateOf s snap)
  · simp only [trackerUpdate, if_pos hcond]
    have h1 : candidateOf s snap ≠ s.phase := hphase ▸ hcond.1
    refine ⟨by simpa using h1, fun _ => by rw [hphase], fun hne hlt => ?_⟩
    exact absurd hcond.2 (not_le.mpr hlt)
  · simp only [trackerUpdate, if_neg hcond]
    exact ⟨by simp [hphase], by simp, fun hne hlt => ⟨hphase, by trivial⟩⟩

/-- Witness for the anti-flap hypothesis of C1: a first snapshot taxiing at
10 m/s makes TAXI_OUT the candidate with zero dwell, and the confirmed
phase stays PREFLIGHT with `changed = false`. -/
theorem trackerUpdate_changed_iff_and_antiflap_witness :
    (trackerUpdate defaultMinDwellSec initTrackerState
        { timestampSec := 10, onGround := true, groundspeedMS := some 10 }).1.phase =
      initTrackerState.phase ∧
    (trackerUpdate defaultMinDwellSec initTrackerState
        { timestampSec := 10, onGround := true, groundspeedMS := some 10 }).2.changed = false :=
  (trackerUpdate_changed_iff_and_antiflap defaultMinDwellSec initTrackerState
      { timestampSec := 10, onGround := true, groundspeedMS := some 10 }).2.2
    (by
      norm_num [candidateOf, determineCandidate, trackerAbsorb, initTrackerState,
        gsKtOf, iasOf, throttleOf, parkOf, FlightSnapshot.aglFt]
      decide)
    (by
      norm_num [dwellElapsed, trackerMid, trackerAbsorb, candidateOf, determineCandidate,
        initTrackerState, gsKtOf, iasOf, throttleOf, parkOf, FlightSnapshot.aglFt,
        defaultMinDwellSec]
      rw [if_neg (by decide : ¬((TAXI_OUT : FlightPhase) = PREFLIGHT))]
      norm_num)

/-- Dict write followed by a read of the same key. -/
theorem lookup_assocSet {α β : Type} [DecidableEq α] [BEq α] [LawfulBEq α]
    (l : List (α × β)) (k : α) (v : β) : (assocSet l k v).lookup k = some v := by
  induction l with
  | nil => simp [assocSet]
  | cons p rest ih =>
    obtain ⟨k0, v0⟩ := p
    by_cases h : k0 = k
    · subst h
      simp [assocSet]
    · have hk : (k == k0) = false := by
        simp [Ne.symm h]
      simp [assocSet, h, List.lookup, hk, ih]

/-- Claim C2, counterexample to the first conjunct as stated: with the
default 8 s cooldown and a downstream speak that reports failure, two
consecutive `speak_urgent(_, "k")` calls 1 s apart BOTH invoke the
downstream `speak` — the failed first call records no timestamp, so the
second is not cooldown-blocked, giving two downstream speak calls. -/
theorem speakUrgent_double_call_counterexample :
    (speakUrgent 8 false initSinkState 100 "k" false).calledSpeak = true ∧
    (speakUrgent 8 false (speakUrgent 8 false initSinkState 100 "k" false).state
        101 "k" false).calledSpeak = true := by
  constructor <;> norm_num [speakUrgent, initSinkState]

/-- Claim C2 (amended): `speak_urgent` returns false without any downstream
speak when the last recorded urgent timestamp for the key is within the
cooldown; otherwise it invokes the downstream speak (unless dry-run),
records the per-key and global-urgent timestamps exactly when it returns
true, and returns true iff dry-run or the speak succeeded.  Consequently
two consecutive calls for the same key within the cooldown of which the
FIRST RETURNS TRUE yield at most one downstream speak: the second returns
false without speaking. -/
theorem speakUrgent_cooldown_semantics
    (cooldown : ℚ) (dry : Bool) (st : SinkState) (now : ℚ) (key : String) (ok : Bool) :
    (now - ((st.lastUrgentByKey.lookup key).getD 0) < cooldown →
      speakUrgent cooldown dry st now key ok =
        { returned := false, calledSpeak := false, state := st }) ∧
    (¬(now - ((st.lastUrgentByKey.lookup key).getD 0) < cooldown) →
      ((speakUrgent cooldown dry st now key ok).returned = true ↔ (dry = true ∨ ok = true)) ∧
      ((speakUrgent cooldown dry st now key ok).calledSpeak = true ↔ dry = false)) ∧
    ((speakUrgent cooldown dry st now key ok).returned = true →
      (speakUrgent cooldown dry st now key ok).state.lastUrgentByKey.lookup key = some now ∧
      (speakUrgent cooldown dry st now key ok).state.lastUrgentEpoch = now) ∧
    (∀ now2 ok2, (speakUrgent cooldown dry st now key ok).returned = true →
      now2 - now < cooldown →
      (speakUrgent cooldown dry (speakUrgent cooldown dry st now key ok).state
          now2 key ok2).calledSpeak = false ∧
      (speakUrgent cooldown dry (speakUrgent cooldown dry st now key ok).state
          now2 key ok2).returned = false) := by
  by_cases hb : now - ((st.lastUrgentByKey.lookup key).getD 0) < cooldown
  · refine ⟨fun _ => by simp [speakUrgent, hb], fun h => absurd hb h, ?_, ?_⟩
    · intro h
      simp [speakUrgent, hb] at h
    · intro now2 ok2 h
      simp [speakUrgent, hb] at h
  · refine ⟨fun h => absurd h hb, fun _ => ?_, ?_, ?_⟩
    · cases dry <;> cases ok <;> simp [speakUrgent, if_neg hb]
    · intro h
      cases dry <;> cases ok <;> simp [speakUrgent, if_neg hb, lookup_assocSet] at h ⊢
    · intro now2 ok2 h hlt
      have hstate : (speakUrgent cooldown dry st now key ok).state.lastUrgentByKey.lookup key
          = some now := by
        cases dry <;> cases ok <;> simp [speakUrgent, if_neg hb, lookup_assocSet] at h ⊢
      have hb2 : now2 - (((speakUrgent cooldown dry st now key ok).state.lastUrgentByKey.lookup
          key).getD 0) < cooldown := by
        rw [hstate]
        simpa using hlt
      simp only [speakUrgent] at hb2 ⊢
      rw [if_pos hb2]
      exact ⟨rfl, rfl⟩

/-- Witness for C2 at concrete inputs: from the fresh sink state, a
successful call at t=100 (cooldown 8) records the timestamps, and a second
call at t=101 is blocked with no downstream speak. -/
theorem speakUrgent_cooldown_semantics_witness :
    ((speakUrgent 8 false initSinkState 100 "k" true).state.lastUrgentByKey.lookup "k" =
        some 100 ∧
      (speakUrgent 8 false initSinkState 100 "k" true).state.lastUrgentEpoch = 100) ∧
    ((speakUrgent 8 false (speakUrgent 8 false initSinkState 100 "k" true).state
        101 "k" true).calledSpeak = false ∧
      (speakUrgent 8 false (speakUrgent 8 false initSinkState 100 "k" true).state
        101 "k" true).returned = false) :=
  ⟨(speakUrgent_cooldown_semantics 8 false initSinkState 100 "k" true).2.2.1
      (by norm_num [speakUrgent, initSinkState]),
   (speakUrgent_cooldown_semantics 8 false initSinkState 100 "k" true).2.2.2 101 true
      (by norm_num [speakUrgent, initSinkState]) (by norm_num)⟩

/-- Claim C10: when the downstream speak reports non-success, the sink's
cooldown state is unchanged — a failed `speak_urgent` leaves the per-key
map and both urgent timestamps as they were (so the next call for that key
is not cooldown-blocked by the failed attempt), and a failed
`speak_nonurgent` leaves the global non-urgent timestamp unchanged; in
dry-run mode the timestamps are updated without any downstream call. -/
theorem speak_failure_state_unchanged
    (uCooldown nCooldown : ℚ) (st : SinkState) (now : ℚ) (key : String) (ok : Bool) :
    (¬(now - ((st.lastUrgentByKey.lookup key).getD 0) < uCooldown) →
      (speakUrgent uCooldown false st now key false).state = st ∧
      (speakUrgent uCooldown false st now key false).returned = false ∧
      (speakUrgent uCooldown false st now key false).calledSpeak = true) ∧
    (¬(now - st.lastNonurgentEpoch < nCooldown) →
      (speakNonurgent nCooldown false st now false).state = st ∧
      (speakNonurgent nCooldown false st now false).returned = false ∧
      (speakNonurgent nCooldown false st now false).calledSpeak = true) ∧
    (¬(now - ((st.lastUrgentByKey.lookup key).getD 0) < uCooldown) →
      (speakUrgent uCooldown true st now key ok).calledSpeak = false ∧
      (speakUrgent uCooldown true st now key ok).state.lastUrgentByKey.lookup key = some now ∧
      (speakUrgent uCooldown true st now key ok).state.lastUrgentEpoch = now) ∧
    (¬(now - st.lastNonurgentEpoch < nCooldown) →
      (speakNonurgent nCooldown true st now ok).calledSpeak = false ∧
      (speakNonurgent nCooldown true st now ok).state.lastNonurgentEpoch = now) := by
  refine ⟨fun hb => ?_, fun hb => ?_, fun hb => ?_, fun hb => ?_⟩
  · simp [speakUrgent, hb]
  · simp [speakNonurgent, hb]
  · simp [speakUrgent, hb, lookup_assocSet]
  · simp [speakNonurgent, hb]

/-- Witness for C10 at concrete inputs: a failed urgent call at t=100 from
the fresh state leaves the state unchanged, and a dry-run non-urgent call
records the timestamp without a downstream call. -/
theorem speak_failure_state_unchanged_witness :
    ((speakUrgent 8 false initSinkState 100 "k" false).state = initSinkState ∧
      (speakUrgent 8 false initSinkState 100 "k" false).returned = false ∧
      (speakUrgent 8 false initSinkState 100 "k" false).calledSpeak = true) ∧
    ((speakNonurgent 45 true initSinkState 100 true).calledSpeak = false ∧
      (speakNonurgent 45 true initSinkState 100 true).state.lastNonurgentEpoch = 100) :=
  ⟨(speak_failure_state_unchanged 8 45 initSinkState 100 "k" true).1
      (by norm_num [initSinkState]),
   (speak_failure_state_unchanged 8 45 initSinkState 100 "k" true).2.2.2
      (by norm_num [initSinkState])⟩

/-- Claim C9: `ReviewWindowBuilder.build` fails with the invalid-input
error exactly on an empty snapshot list and succeeds otherwise, and the
runtime's non-urgent review path skips the cycle on an empty telemetry
window instead of calling `build`. -/
theorem reviewBuild_empty_error_and_skip
    (fe : Option ℚ) (snapshots : List FlightSnapshot) (phase : FlightPhase) :
    (reviewBuild fe [] phase =
      .error "Cannot build review window from an empty snapshot list.") ∧
    (snapshots ≠ [] → ∃ w, reviewBuild fe snapshots phase = .ok w) ∧
    (runNonurgentReviewWindow fe [] phase = none) ∧
    (snapshots ≠ [] →
      runNonurgentReviewWindow fe snapshots phase = some (reviewBuild fe snapshots phase) ∧
      ∃ w, runNonurgentReviewWindow fe snapshots phase = some (.ok w)) := by
  have hok : snapshots ≠ [] → ∃ w, reviewBuild fe snapshots phase = .ok w := by
    intro h
    have hne : snapshots.isEmpty = false := by simpa [List.isEmpty_iff] using h
    simp only [reviewBuild, hne, Bool.false_eq_true, if_false]
    exact ⟨_, rfl⟩
  refine ⟨by simp [reviewBuild], hok, by simp [runNonurgentReviewWindow], fun h => ?_⟩
  have hne : snapshots.isEmpty = false := by simpa [List.isEmpty_iff] using h
  obtain ⟨w, hw⟩ := hok h
  exact ⟨by simp [runNonurgentReviewWindow, hne], w, by simp [runNonurgentReviewWindow, hne, hw]⟩

/-- Witness for C9: the supervisor path skips the empty window, and on a
one-snapshot window `build` succeeds. -/
theorem reviewBuild_empty_error_and_skip_witness :
    runNonurgentReviewWindow none [] FlightPhase.CRUISE = none ∧
    ∃ w, reviewBuild none [{ timestampSec := 2, indicatedAirspeedKt := some 70 }]
        FlightPhase.CRUISE = .ok w :=
  ⟨(reviewBuild_empty_error_and_skip none [] FlightPhase.CRUISE).2.2.1,
   (reviewBuild_empty_error_and_skip none
      [{ timestampSec := 2, indicatedAirspeedKt := some 70 }] FlightPhase.CRUISE).2.1
     (List.cons_ne_nil _ _)⟩

/-- A left fold of `min` lands in the list and bounds every element. -/
theorem foldl_min_spec (xs : List ℚ) :
    ∀ x : ℚ, xs.foldl min x ∈ x :: xs ∧ ∀ y ∈ x :: xs, xs.foldl min x ≤ y := by
  induction xs with
  | nil =>
    intro x
    simp
  | cons y ys ih =>
    intro x
    obtain ⟨hmem, hle⟩ := ih (min x y)
    rw [List.foldl_cons]
    constructor
    · rcases List.mem_cons.mp hmem with hm | hm
      · rcases min_choice x y with hc | hc
        · rw [hm, hc]
          exact List.mem_cons_self _ _
        · rw [hm, hc]
          exact List.mem_cons_of_mem _ (List.mem_cons_self _ _)
      · exact List.mem_cons_of_mem _ (List.mem_cons_of_mem _ hm)
    · intro z hz
      rcases List.mem_cons.mp hz with hz | hz
      · subst hz
        exact le_trans (hle _ (List.mem_cons_self _ _)) (min_le_left _ _)
      rcases List.mem_cons.mp hz with hz | hz
      · subst hz
        exact le_trans (hle _ (List.mem_cons_self _ _)) (min_le_right _ _)
      · exact hle z (List.mem_cons_of_mem _ hz)

/-- A left fold of `max` lands in the list and dominates every element. -/
theorem foldl_max_spec (xs : List ℚ) :
    ∀ x : ℚ, xs.foldl max x ∈ x :: xs ∧ ∀ y ∈ x :: xs, y ≤ xs.foldl max x := by
  induction xs with
  | nil =>
    intro x
    simp
  | cons y ys ih =>
    intro x
    obtain ⟨hmem, hle⟩ := ih (max x y)
    rw [List.foldl_cons]
    constructor
    · rcases List.mem_cons.mp hmem with hm | hm
      · rcases max_choice x y with hc | hc
        · rw [hm, hc]
          exact List.mem_cons_self _ _
        · rw [hm, hc]
          exact List.mem_cons_of_mem _ (List.mem_cons_self _ _)
      · exact List.mem_cons_of_mem _ (List.mem_cons_of_mem _ hm)
    · intro z hz
      rcases List.mem_cons.mp hz with hz | hz
      · subst hz
        exact le_trans (le_max_left _ _) (hle _ (List.mem_cons_self _ _))
      rcases List.mem_cons.mp hz with hz | hz
      · subst hz
        exact le_trans (le_max_right _ _) (hle _ (List.mem_cons_self _ _))
      · exact hle z (List.mem_cons_of_mem _ hz)

/-- Python's `min` over a nonempty rational list is a member and a lower
bound. -/
theorem listMinQ_spec (l : List ℚ) (h : l ≠ []) :
    ∃ m, listMinQ l = some m ∧ m ∈ l ∧ ∀ x ∈ l, m ≤ x := by
  match l, h with
  | x :: xs, _ =>
    obtain ⟨hmem, hle⟩ := foldl_min_spec xs x
    exact ⟨_, rfl, hmem, hle⟩

/-- Python's `max` over a nonempty rational list is a member and an upper
bound. -/
theorem listMaxQ_spec (l : List ℚ) (h : l ≠ []) :
    ∃ m, listMaxQ l = some m ∧ m ∈ l ∧ ∀ x ∈ l, x ≤ m := by
  match l, h with
  | x :: xs, _ =>
    obtain ⟨hmem, hle⟩ := foldl_max_spec xs x
    exact ⟨_, rfl, hmem, hle⟩

/-- `fmean` times the length recovers the sum. -/
theorem fmeanQ_mul (l : List ℚ) : (l.length : ℚ) * fmeanQ l = l.sum := by
  unfold fmeanQ
  rcases eq_or_ne ((l.length : ℚ)) 0 with h | h
  · have hl : l.length = 0 := by exact_mod_cast h
    have : l = [] := List.length_eq_zero.mp hl
    subst this
    simp
  · rw [mul_comm, div_mul_cancel₀ _ h]

/-- Claim C4, counterexample as stated: on two snapshots with IAS 0 and 10
the IAS mean is 5, but no entry of the produced metrics carries the value
5 — the builder computes no mean of indicated airspeed. -/
theorem reviewBuild_no_ias_mean_counterexample :
    reviewBuild none
        [{ timestampSec := 0, indicatedAirspeedKt := some 0 },
         { timestampSec := 1, indicatedAirspeedKt := some 10 }] .CRUISE =
      .ok ({ startEpoch := 0, endEpoch := 1, phase := .CRUISE, sampleCount := 2
             metrics := [("ias_min_kt", 0), ("ias_max_kt", 10), ("vs_mean_fpm", 0),
                         ("vs_min_fpm", 0), ("vs_max_fpm", 0), ("roll_abs_max_deg", 0),
                         ("agl_min_ft", 0), ("agl_max_ft", 0)]
             eventHints := [] }, none) ∧
    fmeanQ (iasValuesOf
        [{ timestampSec := 0, indicatedAirspeedKt := some 0 },
         { timestampSec := 1, indicatedAirspeedKt := some 10 }]) = 5 ∧
    ∀ kv ∈ [(("ias_min_kt" : String), (0 : ℚ)), ("ias_max_kt", 10), ("vs_mean_fpm", 0),
            ("vs_min_fpm", 0), ("vs_max_fpm", 0), ("roll_abs_max_deg", 0),
            ("agl_min_ft", 0), ("agl_max_ft", 0)], kv.2 ≠ (5 : ℚ) := by
  refine ⟨?_, ?_, ?_⟩
  · norm_num [reviewBuild, updateFieldElevation, iasValuesOf, vsValuesOf, rollValuesOf,
      aglValuesOf, listMinQ, listMaxQ, fmeanQ, FlightSnapshot.aglFt, gsKtOf,
      List.filterMap_cons, List.filterMap_nil]
    decide
  · norm_num [fmeanQ, iasValuesOf, List.filterMap_cons, List.filterMap_nil]
  · intro kv hkv
    fin_cases hkv <;> norm_num

/-- Claim C4 (amended): for every non-empty snapshot list and phase, the
builder returns a window whose metrics carry the min and max of IAS (no
IAS mean is computed), the min, max and mean of vertical speed, the maximum
absolute roll, and the min and max of AGL, each over the samples that carry
those fields; the min/max aggregates are members of and bounds for their
value lists, and the mean times the sample count recovers the sum. -/
theorem reviewBuild_metrics (fe : Option ℚ) (snapshots : List FlightSnapshot)
    (phase : FlightPhase) (h : snapshots ≠ []) :
    ∃ w fe2, reviewBuild fe snapshots phase = .ok (w, fe2) ∧
      w.metrics.lookup "ias_min_kt" = some ((listMinQ (iasValuesOf snapshots)).getD 0) ∧
      w.metrics.lookup "ias_max_kt" = some ((listMaxQ (iasValuesOf snapshots)).getD 0) ∧
      w.metrics.lookup "vs_mean_fpm" =
        some (if (vsValuesOf snapshots).isEmpty then 0 else fmeanQ (vsValuesOf snapshots)) ∧
      w.metrics.lookup "vs_min_fpm" = some ((listMinQ (vsValuesOf snapshots)).getD 0) ∧
      w.metrics.lookup "vs_max_fpm" = some ((listMaxQ (vsValuesOf snapshots)).getD 0) ∧
      w.metrics.lookup "roll_abs_max_deg" = some ((listMaxQ (rollValuesOf snapshots)).getD 0) ∧
      w.metrics.lookup "agl_min_ft" =
        some ((listMinQ (aglValuesOf (updateFieldElevation fe snapshots) snapshots)).getD 0) ∧
      w.metrics.lookup "agl_max_ft" =
        some ((listMaxQ (aglValuesOf (updateFieldElevation fe snapshots) snapshots)).getD 0) ∧
      (∀ l : List ℚ, l ≠ [] → ∃ m, listMinQ l = some m ∧ m ∈ l ∧ ∀ x ∈ l, m ≤ x) ∧
      (∀ l : List ℚ, l ≠ [] → ∃ m, listMaxQ l = some m ∧ m ∈ l ∧ ∀ x ∈ l, x ≤ m) ∧
      (∀ l : List ℚ, (l.length : ℚ) * fmeanQ l = l.sum) := by
  have hne : snapshots.isEmpty = false := by simpa [List.isEmpty_iff] using h
  simp only [reviewBuild, hne, Bool.false_eq_true, if_false]
  refine ⟨_, _, rfl, ?_, ?_, ?_, ?_, ?_, ?_, ?_, ?_, listMinQ_spec, listMaxQ_spec, fmeanQ_mul⟩
  all_goals simp [List.lookup]

/-- Witness for C4 at a concrete input: a single snapshot with IAS 70. -/
theorem reviewBuild_metrics_witness :
    ∃ w fe2,
      reviewBuild none [{ timestampSec := 2, indicatedAirspeedKt := some 70 }]
          FlightPhase.DESCENT = .ok (w, fe2) ∧
      w.metrics.lookup "ias_min_kt" =
        some ((listMinQ (iasValuesOf
          [{ timestampSec := 2, indicatedAirspeedKt := some 70 }])).getD 0) := by
  obtain ⟨w, fe2, h1, h2, _⟩ :=
    reviewBuild_metrics none [{ timestampSec := 2, indicatedAirspeedKt := some 70 }]
      FlightPhase.DESCENT (List.cons_ne_nil _ _)
  exact ⟨w, fe2, h1, h2⟩

/-- Decoding inverts the little-endian two's-complement int32 encoding on
the int32 range. -/
theorem decInt32_encInt32 (i : Int) (h1 : -2147483648 ≤ i) (h2 : i < 2147483648) :
    decInt32 (encInt32 i) = i := by
  simp only [decInt32, encInt32, decNat32, le4, List.getD, List.get?, Option.getD]
  split <;> omega

/-- Decoding inverts the little-endian 32-bit word encoding. -/
theorem decNat32_le4 (n : ℕ) (h : n < 4294967296) : decNat32 (le4 n) = n := by
  simp only [decNat32, le4, List.getD, List.get?, Option.getD]
  omega

/-- `takeWhile (· ≠ 0)` recovers a NUL-free prefix up to its terminator. -/
theorem takeWhile_nonzero_append (l rest : List ℕ) (h : ∀ b ∈ l, b ≠ 0) :
    (l ++ 0 :: rest).takeWhile (fun b => b ≠ 0) = l := by
  induction l with
  | nil =>
    rw [List.nil_append, List.takeWhile_cons_of_neg (by simp)]
  | cons a as ih =>
    have ha : a ≠ 0 := h a (List.mem_cons_self _ _)
    rw [List.cons_append, List.takeWhile_cons_of_pos (by simpa using ha),
      ih (fun b hb => h b (List.mem_cons_of_mem _ hb))]

/-- A dict write with a fresh key appends the binding. -/
theorem assocSet_of_not_mem {α β : Type} [DecidableEq α] (l : List (α × β)) (k : α) (v : β)
    (h : k ∉ l.map Prod.fst) : assocSet l k v = l ++ [(k, v)] := by
  induction l with
  | nil => rfl
  | cons p rest ih =>
    obtain ⟨k0, v0⟩ := p
    simp only [List.map_cons, List.mem_cons] at h
    push_neg at h
    have hne : ¬(k0 = k) := fun hh => h.1 hh.symm
    simp [assocSet, hne, ih h.2]

/-- Folding dict writes of pairwise-distinct fresh keys appends them all in
order. -/
theorem foldl_assocSet_nodup {α β : Type} [DecidableEq α] :
    ∀ (entries acc : List (α × β)),
      (entries.map Prod.fst).Nodup →
      (∀ k ∈ acc.map Prod.fst, k ∉ entries.map Prod.fst) →
      entries.foldl (fun a e => assocSet a e.1 e.2) acc = acc ++ entries := by
  intro entries
  induction entries with
  | nil =>
    intro acc _ _
    simp
  | cons e rest ih =>
    intro acc hnd hdisj
    simp only [List.map_cons, List.nodup_cons] at hnd
    have he : e.1 ∉ acc.map Prod.fst :=
      fun hmem => (hdisj e.1 hmem) (List.mem_cons_self _ _)
    rw [List.foldl_cons, assocSet_of_not_mem _ _ _ he, ih (acc ++ [e]) hnd.2 ?disj]
    · simp
    case disj =>
      intro k hk
      simp only [List.map_append, List.mem_append] at hk
      rcases hk with hk | hk
      · exact fun hr => (hdisj k hk) (List.mem_cons_of_mem _ hr)
      · simp only [List.map_cons, List.map_nil, List.mem_singleton] at hk
        exact hk ▸ hnd.1

/-- One 8-byte record step of the response-entry loop. -/
theorem parseRRefEntries_step (i : Int) (v : ℕ) (rest : List ℕ) (acc : List (Int × ℕ)) :
    parseRRefEntries ((encInt32 i ++ le4 v) ++ rest) acc =
      parseRRefEntries rest (assocSet acc (decInt32 (encInt32 i)) (decNat32 (le4 v))) := by
  rfl

/-- The response-entry loop over concatenated well-formed records folds the
dict writes. -/
theorem parseRRefEntries_flatMap :
    ∀ (entries acc : List (Int × ℕ)),
      (∀ e ∈ entries, -2147483648 ≤ e.1 ∧ e.1 < 2147483648 ∧ e.2 < 4294967296) →
      parseRRefEntries (entries.flatMap (fun e => encInt32 e.1 ++ le4 e.2)) acc =
        entries.foldl (fun a e => assocSet a e.1 e.2) acc := by
  intro entries
  induction entries with
  | nil =>
    intro acc _
    rfl
  | cons e rest ih =>
    intro acc hb
    obtain ⟨i, v⟩ := e
    have hbe := hb (i, v) (List.mem_cons_self _ _)
    rw [List.flatMap_cons, parseRRefEntries_step i v _ acc,
      decInt32_encInt32 i hbe.1 hbe.2.1, decNat32_le4 v hbe.2.2,
      ih _ (fun x hx => hb x (List.mem_cons_of_mem _ hx)), List.foldl_cons]

/-- Claim C6: the request packet is a 413-byte frame from which the
spec layout recovers `(freq_hz, index, name)` for any NUL-free ASCII
dataref shorter than 400 bytes and int32-range fields, and a response
datagram built from records with pairwise-distinct indices parses back to
the same index-to-value map (float32 values carried as their 32-bit
patterns). -/
theorem rref_protocol_roundtrip
    (freqHz index : Int) (dataref : List ℕ) (entries : List (Int × ℕ))
    (hf1 : -2147483648 ≤ freqHz) (hf2 : freqHz < 2147483648)
    (hi1 : -2147483648 ≤ index) (hi2 : index < 2147483648)
    (hname : ∀ b ∈ dataref, 0 < b ∧ b < 128) (hlen : dataref.length < 400)
    (he : ∀ e ∈ entries, -2147483648 ≤ e.1 ∧ e.1 < 2147483648 ∧ e.2 < 4294967296)
    (hnodup : (entries.map Prod.fst).Nodup) :
    (buildRRefRequestPacket freqHz index dataref).length = 413 ∧
    unpackRRefRequest (buildRRefRequestPacket freqHz index dataref) =
      (rrefRequestHeader, freqHz, index, dataref) ∧
    parseRRefDatagram (buildRRefResponseDatagram entries) = entries := by
  have hfilter : dataref.filter (· < 128) = dataref := by
    refine List.filter_eq_self.mpr fun b hb => ?_
    simpa using (hname b hb).2
  have htake : (dataref.filter (· < 128)).take 399 = dataref := by
    rw [hfilter]
    exact List.take_of_length_le (by omega)
  have hpayload :
      buildRRefRequestPacket freqHz index dataref =
        rrefRequestHeader ++ encInt32 freqHz ++ encInt32 index ++
          ((dataref ++ [0]) ++ List.replicate (400 - (dataref ++ [0]).length) 0) := by
    simp only [buildRRefRequestPacket, htake]
  have hpayloadLen :
      ((dataref ++ [0]) ++ List.replicate (400 - (dataref ++ [0]).length) 0).length = 400 := by
    simp only [List.length_append, List.length_replicate, List.length_cons, List.length_nil]
    omega
  refine ⟨?_, ?_, ?_⟩
  · rw [hpayload]
    simp only [List.length_append, List.length_cons, List.length_nil, List.length_replicate,
      rrefRequestHeader, encInt32, le4]
    omega
  · rw [hpayload]
    unfold unpackRRefRequest
    have hHdr : (5 : ℕ) = (rrefRequestHeader : List ℕ).length := rfl
    have hF : (4 : ℕ) = (encInt32 freqHz).length := by
      simp [encInt32, le4]
    have assoc1 :
        rrefRequestHeader ++ encInt32 freqHz ++ encInt32 index ++
            ((dataref ++ [0]) ++ List.replicate (400 - (dataref ++ [0]).length) 0) =
          rrefRequestHeader ++ (encInt32 freqHz ++ (encInt32 index ++
            ((dataref ++ [0]) ++ List.replicate (400 - (dataref ++ [0]).length) 0))) := by
      simp [List.append_assoc]
    have htake5 :
        (rrefRequestHeader ++ encInt32 freqHz ++ encInt32 index ++
            ((dataref ++ [0]) ++ List.replicate (400 - (dataref ++ [0]).length) 0)).take 5 =
          rrefRequestHeader := by
      rw [assoc1, hHdr, List.take_left]
    have hdrop5 :
        (rrefRequestHeader ++ encInt32 freqHz ++ encInt32 index ++
            ((dataref ++ [0]) ++ List.replicate (400 - (dataref ++ [0]).length) 0)).drop 5 =
          encInt32 freqHz ++ (encInt32 index ++
            ((dataref ++ [0]) ++ List.replicate (400 - (dataref ++ [0]).length) 0)) := by
      rw [assoc1, hHdr, List.drop_left]
    have hdrop9 :
        (rrefRequestHeader ++ encInt32 freqHz ++ encInt32 index ++
            ((dataref ++ [0]) ++ List.replicate (400 - (dataref ++ [0]).length) 0)).drop 9 =
          encInt32 index ++
            ((dataref ++ [0]) ++ List.replicate (400 - (dataref ++ [0]).length) 0) := by
      have h9 : (9 : ℕ) = (rrefRequestHeader ++ encInt32 freqHz).length := by
        simp [rrefRequestHeader, encInt32, le4]
      rw [h9, List.append_assoc (rrefRequestHeader ++ encInt32 freqHz) (encInt32 index),
        List.drop_left]
    have hdrop13 :
        (rrefRequestHeader ++ encInt32 freqHz ++ encInt32 index ++
            ((dataref ++ [0]) ++ List.replicate (400 - (dataref ++ [0]).length) 0)).drop 13 =
          (dataref ++ [0]) ++ List.replicate (400 - (dataref ++ [0]).length) 0 := by
      have : (13 : ℕ) = (rrefRequestHeader ++ encInt32 freqHz ++ encInt32 index).length := by
        simp [rrefRequestHeader, encInt32, le4]
      rw [this, List.drop_left]
    rw [htake5, hdrop5, hdrop9, hdrop13]
    have hencF : (encInt32 freqHz ++ (encInt32 index ++
        ((dataref ++ [0]) ++ List.replicate (400 - (dataref ++ [0]).length) 0))).take 4 =
        encInt32 freqHz := by
      rw [hF, List.take_left]
    have hencI : (encInt32 index ++
        ((dataref ++ [0]) ++ List.replicate (400 - (dataref ++ [0]).length) 0)).take 4 =
        encInt32 index := by
      rw [show (4 : ℕ) = (encInt32 index).length from by simp [encInt32, le4], List.take_left]
    rw [hencF, hencI, decInt32_encInt32 freqHz hf1 hf2, decInt32_encInt32 index hi1 hi2]
    have hname400 :
        (((dataref ++ [0]) ++ List.replicate (400 - (dataref ++ [0]).length) 0).take 400) =
          (dataref ++ [0]) ++ List.replicate (400 - (dataref ++ [0]).length) 0 :=
      List.take_of_length_le (le_of_eq hpayloadLen)
    rw [hname400]
    have hshape :
        (dataref ++ [0]) ++ List.replicate (400 - (dataref ++ [0]).length) 0 =
          dataref ++ (0 :: List.replicate (400 - (dataref ++ [0]).length) 0) := by
      simp
    rw [hshape, takeWhile_nonzero_append dataref _ (fun b hb => Nat.pos_iff_ne_zero.mp (hname b hb).1)]
  · unfold buildRRefResponseDatagram parseRRefDatagram
    rw [show (rrefResponseHeader ++
        entries.flatMap (fun e => encInt32 e.1 ++ le4 e.2)).take 5 = rrefResponseHeader from by
      rw [show (5 : ℕ) = (rrefResponseHeader : List ℕ).length from rfl, List.take_left]]
    rw [if_pos rfl]
    rw [show (rrefResponseHeader ++
        entries.flatMap (fun e => encInt32 e.1 ++ le4 e.2)).drop 5 =
        entries.flatMap (fun e => encInt32 e.1 ++ le4 e.2) from by
      rw [show (5 : ℕ) = (rrefResponseHeader : List ℕ).length from rfl, List.drop_left]]
    rw [parseRRefEntries_flatMap entries [] he,
      foldl_assocSet_nodup entries [] hnodup (by simp), List.nil_append]

/-- Witness for C6 at concrete inputs: `(freq 10, index 7, name "sim")` and
two records `(1 ↦ 0x42f70000, 2 ↦ 0xc0880000)`. -/
theorem rref_protocol_roundtrip_witness :
    (buildRRefRequestPacket 10 7 [115, 105, 109]).length = 413 ∧
    unpackRRefRequest (buildRRefRequestPacket 10 7 [115, 105, 109]) =
      (rrefRequestHeader, 10, 7, [115, 105, 109]) ∧
    parseRRefDatagram (buildRRefResponseDatagram [(1, 1123418112), (2, 3229614080)]) =
      [(1, 1123418112), (2, 3229614080)] :=
  rref_protocol_roundtrip 10 7 [115, 105, 109] [(1, 1123418112), (2, 3229614080)]
    (by norm_num) (by norm_num) (by norm_num) (by norm_num)
    (by decide) (by decide) (by decide) (by decide)

/-- Distinct positions of a duplicate-free list hold distinct values. -/
theorem nodup_getD_ne (l : List String) (hnd : l.Nodup) (i j : ℕ)
    (hi : i < l.length) (hj : j < l.length) (hij : i ≠ j) :
    l.getD i "" ≠ l.getD j "" := by
  rw [List.getD_eq_getElem l "" hi, List.getD_eq_getElem l "" hj]
  intro h
  exact hij (List.Nodup.getElem_inj_iff hnd |>.mp h)

/-- One `_speak_for` call with at least two cleaned variants: the chosen
index is in range, never repeats the recorded previous index, is recorded,
and selects the spoken text. -/
theorem speakFor_variant_step (p : HazardProfile) (lastVariantIdx : List (String × ℕ))
    (alertId fallback : String) (d : ℕ)
    (hk : 2 ≤ (cleanedVariants p alertId).length)
    (hd : d < (cleanedVariants p alertId).length) :
    ∃ j, j < (cleanedVariants p alertId).length ∧
      (speakFor p lastVariantIdx alertId fallback d).1 =
        (cleanedVariants p alertId).getD j "" ∧
      (speakFor p lastVariantIdx alertId fallback d).2.lookup alertId = some j ∧
      (∀ q, lastVariantIdx.lookup alertId = some q → j ≠ q) := by
  have hne : (cleanedVariants p alertId).isEmpty = false := by
    cases h : cleanedVariants p alertId with
    | nil => rw [h] at hk; simp at hk
    | cons a as => simp
  have hne1 : ¬((cleanedVariants p alertId).length = 1) := by omega
  unfold speakFor
  dsimp only
  rw [hne, if_neg (by simp), if_neg hne1]
  cases hq : lastVariantIdx.lookup alertId with
  | none =>
    dsimp only
    exact ⟨d, hd, rfl, lookup_assocSet _ _ _, fun q hq2 => by simp at hq2⟩
  | some q =>
    dsimp only
    by_cases hdq : d = q
    · rw [if_pos hdq]
      refine ⟨(d + 1) % (cleanedVariants p alertId).length,
        Nat.mod_lt _ (by omega), rfl, lookup_assocSet _ _ _, ?_⟩
      intro q2 hq2
      injection hq2 with hq2
      subst hq2
      subst hdq
      rcases Nat.lt_or_ge (d + 1) (cleanedVariants p alertId).length with hlt | hge
      · rw [Nat.mod_eq_of_lt hlt]
        omega
      · have : d + 1 = (cleanedVariants p alertId).length := by omega
        rw [this, Nat.mod_self]
        omega
    · rw [if_neg hdq]
      refine ⟨d, hd, rfl, lookup_assocSet _ _ _, ?_⟩
      intro q2 hq2
      injection hq2 with hq2
      subst hq2
      exact hdq

/-- Iterated `_speak_for` for one rule: with pairwise-distinct cleaned
variants and in-range draws, adjacent spoken texts differ and the recorded
index determines the head of the remaining outputs. -/
theorem speakForSeq_chain (p : HazardProfile) (alertId fallback : String)
    (hnd : (cleanedVariants p alertId).Nodup)
    (hk : 2 ≤ (cleanedVariants p alertId).length) :
    ∀ (draws : List ℕ) (lastVariantIdx : List (String × ℕ)),
      (∀ d ∈ draws, d < (cleanedVariants p alertId).length) →
      List.Chain' (· ≠ ·) (speakForSeq p lastVariantIdx alertId fallback draws).1 ∧
      (∀ q, lastVariantIdx.lookup alertId = some q →
        q < (cleanedVariants p alertId).length →
        (speakForSeq p lastVariantIdx alertId fallback draws).1.head? ≠
          some ((cleanedVariants p alertId).getD q "")) := by
  intro draws
  induction draws with
  | nil =>
    intro lastVariantIdx _
    exact ⟨List.chain'_nil, fun q _ _ => by simp [speakForSeq]⟩
  | cons d rest ih =>
    intro lastVariantIdx hin
    obtain ⟨j, hj, htext, hrec, hnot⟩ :=
      speakFor_variant_step p lastVariantIdx alertId fallback d hk
        (hin d (List.mem_cons_self _ _))
    obtain ⟨ihchain, ihhead⟩ :=
      ih (speakFor p lastVariantIdx alertId fallback d).2
        (fun x hx => hin x (List.mem_cons_of_mem _ hx))
    have hseq : (speakForSeq p lastVariantIdx alertId fallback (d :: rest)).1 =
        (speakFor p lastVariantIdx alertId fallback d).1 ::
          (speakForSeq p (speakFor p lastVariantIdx alertId fallback d).2
            alertId fallback rest).1 := by
      simp only [speakForSeq]
    rw [hseq]
    constructor
    · refine List.chain'_cons'.mpr ⟨?_, ihchain⟩
      intro y hy
      have hh := ihhead j hrec hj
      intro heq
      apply hh
      rw [hy, ← heq, htext]
    · intro q hq hqlt
      simp only [List.head?_cons, ne_eq, Option.some.injEq]
      rw [htext]
      exact nodup_getD_ne _ hnd j q hj hqlt (hnot q hq)

/-- Claim C7, counterexample to "no two adjacent utterances are identical"
as stated: a rule whose two speech variants normalize to the same text
("Alpha" twice, k = 2 > 1) produces the identical utterance on two
consecutive firings even though the chosen indices differ (0 then 1). -/
theorem speakFor_adjacent_duplicate_counterexample :
    (speakForSeq { speechVariants := [("r", ["Alpha", "Alpha"])] } [] "r" "fallback"
        [0, 0]).1 = ["Alpha.", "Alpha."] ∧
    ¬ List.Chain' (· ≠ ·)
      (speakForSeq { speechVariants := [("r", ["Alpha", "Alpha"])] } [] "r" "fallback"
        [0, 0]).1 := by
  have h : (speakForSeq { speechVariants := [("r", ["Alpha", "Alpha"])] } [] "r" "fallback"
      [0, 0]).1 = ["Alpha.", "Alpha."] := by decide
  refine ⟨h, ?_⟩
  rw [h]
  simp

/-- Claim C7 (amended): each `_speak_for` call with k ≥ 2 cleaned variants
chooses an index that never repeats the immediately previous recorded
index; consequently, across consecutive firings of a rule whose cleaned
variant list has k > 1 PAIRWISE-DISTINCT entries, no two adjacent
utterances are identical; and a single-variant list always returns that
(normalized) variant. -/
theorem speakFor_rotation (p : HazardProfile) (alertId fallback : String)
    (lastVariantIdx : List (String × ℕ)) (d : ℕ) (draws : List ℕ) :
    (2 ≤ (cleanedVariants p alertId).length →
      d < (cleanedVariants p alertId).length →
      ∃ j, (speakFor p lastVariantIdx alertId fallback d).2.lookup alertId = some j ∧
        (speakFor p lastVariantIdx alertId fallback d).1 =
          (cleanedVariants p alertId).getD j "" ∧
        ∀ q, lastVariantIdx.lookup alertId = some q → j ≠ q) ∧
    (2 ≤ (cleanedVariants p alertId).length →
      (cleanedVariants p alertId).Nodup →
      (∀ x ∈ draws, x < (cleanedVariants p alertId).length) →
      List.Chain' (· ≠ ·) (speakForSeq p lastVariantIdx alertId fallback draws).1) ∧
    ((cleanedVariants p alertId).length = 1 →
      (speakFor p lastVariantIdx alertId fallback d).1 =
        (cleanedVariants p alertId).headD "") := by
  refine ⟨fun hk hd => ?_, fun hk hnd hin => ?_, fun h1 => ?_⟩
  · obtain ⟨j, hj, htext, hrec, hnot⟩ :=
      speakFor_variant_step p lastVariantIdx alertId fallback d hk hd
    exact ⟨j, hrec, htext, hnot⟩
  · exact (speakForSeq_chain p alertId fallback hnd hk draws lastVariantIdx hin).1
  · have hne : (cleanedVariants p alertId).isEmpty = false := by
      cases h : cleanedVariants p alertId with
      | nil => rw [h] at h1; simp at h1
      | cons a as => simp
    unfold speakFor
    dsimp only
    rw [hne, if_neg (by simp), if_pos h1]

/-- Witness for C7: the default profile's pull-up rule has three distinct
variants; draws 0,0,1 produce pairwise-distinct adjacent utterances, and a
single-variant rule returns its normalized text. -/
theorem speakFor_rotation_witness :
    List.Chain' (· ≠ ·)
      (speakForSeq defaultHazardProfile [] "pull_up_now" "Pull up. Arrest descent now."
        [0, 0, 1]).1 ∧
    (speakFor { speechVariants := [("solo", ["One line only"])] } [] "solo" "fb" 0).1 =
      (cleanedVariants { speechVariants := [("solo", ["One line only"])] } "solo").headD "" :=
  ⟨(speakFor_rotation defaultHazardProfile "pull_up_now" "Pull up. Arrest descent now."
      [] 0 [0, 0, 1]).2.1 (by decide) (by decide) (by decide),
   (speakFor_rotation { speechVariants := [("solo", ["One line only"])] } "solo" "fb"
      [] 0 []).2.2 (by decide)⟩

/-- On-ground snapshots leave `_taxi_in_rollout_cleared` untouched by the
head updates of `evaluate`. -/
theorem monitorAbsorb_cleared (st : MonitorState) (snap : FlightSnapshot)
    (hg : snap.onGround = true) :
    (monitorAbsorb st snap).taxiInRolloutCleared = st.taxiInRolloutCleared := by
  unfold monitorAbsorb
  rw [hg]
  dsimp only
  split <;> rfl

/-- Taxi-speed monitoring is declined outside the taxi phases, during a
takeoff ground roll, and during an uncleared landing rollout. -/
theorem shouldMonitorTaxiSpeed_false_cases (p : HazardProfile) (cleared : Bool)
    (snap : FlightSnapshot) (ps : PhaseState) (gs ias : ℚ) :
    ((¬(ps.phase = .TAXI_OUT ∨ ps.phase = .TAXI_IN)) →
      (shouldMonitorTaxiSpeed p cleared snap ps gs ias).1 = false) ∧
    (ps.phase = .TAXI_OUT → isTakeoffGroundRoll p snap gs ias = true →
      (shouldMonitorTaxiSpeed p cleared snap ps gs ias).1 = false) ∧
    (ps.phase = .TAXI_IN → cleared = false →
      ¬(gs ≤ thresholdOf p "taxi_in_rollout_clear_gs_kt" 25.0 ∧
        ias ≤ thresholdOf p "taxi_in_rollout_clear_ias_kt" 30.0) →
      (shouldMonitorTaxiSpeed p cleared snap ps gs ias).1 = false) := by
  refine ⟨fun hnp => ?_, fun hp hroll => ?_, fun hp hcl hspd => ?_⟩
  · unfold shouldMonitorTaxiSpeed
    rw [if_pos hnp]
  · unfold shouldMonitorTaxiSpeed
    rw [if_neg (by simp [hp]), if_pos ⟨hp, hroll⟩]
  · unfold shouldMonitorTaxiSpeed
    have hne : ¬(ps.phase = .TAXI_OUT ∧ isTakeoffGroundRoll p snap gs ias = true) := by
      rintro ⟨h1, -⟩
      rw [hp] at h1
      cases h1
    rw [if_neg (by simp [hp]), if_neg hne, if_pos ⟨hp, by simp [hcl]⟩, if_neg hspd]

/-- Taxi-speed monitoring happens only in the taxi phases. -/
theorem shouldMonitorTaxiSpeed_true_phase (p : HazardProfile) (cleared : Bool)
    (snap : FlightSnapshot) (ps : PhaseState) (gs ias : ℚ)
    (h : (shouldMonitorTaxiSpeed p cleared snap ps gs ias).1 = true) :
    ps.phase = .TAXI_OUT ∨ ps.phase = .TAXI_IN := by
  by_contra hnp
  rw [(shouldMonitorTaxiSpeed_false_cases p cleared snap ps gs ias).1 hnp] at h
  cases h

/-- When taxi-speed monitoring is declined, an on-ground `evaluate` fires
nothing. -/
theorem hazardEvaluate_ground_no_monitor (p : HazardProfile) (cd : ℚ)
    (st : MonitorState) (snap : FlightSnapshot) (ps : PhaseState)
    (hg : snap.onGround = true)
    (hm : (shouldMonitorTaxiSpeed p st.taxiInRolloutCleared snap ps
        (gsKtOf snap) (iasOf snap)).1 = false) :
    (hazardEvaluate p cd st snap ps).1 = [] := by
  have hm2 : (shouldMonitorTaxiSpeed p (monitorAbsorb st snap).taxiInRolloutCleared snap ps
      (gsKtOf snap) (iasOf snap)).1 = false := by
    rw [monitorAbsorb_cleared st snap hg]
    exact hm
  unfold hazardEvaluate
  dsimp only
  rw [hg]
  by_cases he : ruleEnabled p "excessive_taxi_speed" = true
  · simp only [he, if_true, if_pos rfl, hm2, Bool.not_false, if_true]
  · simp only [if_pos rfl, Bool.not_eq_true] at he ⊢
    rw [he]
    rfl

/-- Membership in an optionally-appended hazard alert. -/
theorem mem_hazardFire_if (p : HazardProfile) (cd now : ℚ) {c : Prop} [Decidable c]
    (acc : List HazardAlert × MonitorState) (aid sev msg fb : String) (a : HazardAlert)
    (ha : a ∈ (if c then hazardFire p cd now acc aid sev msg fb else acc).1) :
    a ∈ acc.1 ∨ a.alertId = aid := by
  obtain ⟨alerts, st⟩ := acc
  revert ha
  split
  · intro ha
    simp only [hazardFire, drawNext, List.mem_append, List.mem_singleton] at ha
    rcases ha with ha | ha
    · exact Or.inl ha
    · right
      rw [ha]
  · intro ha
    exact Or.inl ha

/-- Claim C8: `excessive_taxi_speed` fires only on the ground in a taxi
phase with groundspeed above `max_taxi_speed_kt` (30) or IAS above
`max_taxi_ias_kt` (35); it is suppressed during a TAXI_OUT takeoff ground
roll and during a TAXI_IN rollout that has not yet cleared; in particular
the S2 snapshot (on ground, 19 m/s, IAS 44, throttle 0.9) fires no alert
from a not-yet-cleared monitor state, in every phase. -/
theorem taxi_speed_alert_gating (cd t : ℚ) (st : MonitorState)
    (snap : FlightSnapshot) (ps : PhaseState) :
    (∀ a ∈ (hazardEvaluate defaultHazardProfile cd st snap ps).1,
      a.alertId = "excessive_taxi_speed" →
      snap.onGround = true ∧ (ps.phase = .TAXI_OUT ∨ ps.phase = .TAXI_IN) ∧
        (gsKtOf snap > 30 ∨ iasOf snap > 35)) ∧
    (snap.onGround = true → ps.phase = .TAXI_OUT →
      throttleOf snap ≥ 0.65 → (iasOf snap ≥ 35 ∨ gsKtOf snap ≥ 30) →
      (hazardEvaluate defaultHazardProfile cd st snap ps).1 = []) ∧
    (snap.onGround = true → ps.phase = .TAXI_IN → st.taxiInRolloutCleared = false →
      ¬(gsKtOf snap ≤ 25 ∧ iasOf snap ≤ 30) →
      (hazardEvaluate defaultHazardProfile cd st snap ps).1 = []) ∧
    (st.taxiInRolloutCleared = false →
      (hazardEvaluate defaultHazardProfile cd st
        { timestampSec := t, onGround := true, groundspeedMS := some 19,
          indicatedAirspeedKt := some 44, throttle := some 0.9 } ps).1 = []) := by
  have hthrGs : thresholdOf defaultHazardProfile "max_taxi_speed_kt" 30.0 = 30 := by
    rw [show thresholdOf defaultHazardProfile "max_taxi_speed_kt" 30.0 = 30.0 from rfl]
    norm_num
  have hthrIas : thresholdOf defaultHazardProfile "max_taxi_ias_kt" 35.0 = 35 := by
    rw [show thresholdOf defaultHazardProfile "max_taxi_ias_kt" 35.0 = 35.0 from rfl]
    norm_num
  have hthrClrGs : thresholdOf defaultHazardProfile "taxi_in_rollout_clear_gs_kt" 25.0 = 25 := by
    rw [show thresholdOf defaultHazardProfile "taxi_in_rollout_clear_gs_kt" 25.0 = 25.0 from rfl]
    norm_num
  have hthrClrIas : thresholdOf defaultHazardProfile "taxi_in_rollout_clear_ias_kt" 30.0 = 30 := by
    rw [show thresholdOf defaultHazardProfile "taxi_in_rollout_clear_ias_kt" 30.0 = 30.0 from rfl]
    norm_num
  have henabled : ruleEnabled defaultHazardProfile "excessive_taxi_speed" = true := by decide
  have hroll : ∀ s : FlightSnapshot, throttleOf s ≥ 0.65 →
      (iasOf s ≥ 35 ∨ gsKtOf s ≥ 30) →
      isTakeoffGroundRoll defaultHazardProfile s (gsKtOf s) (iasOf s) = true := by
    intro s hthr hspd
    have h1 : thresholdOf defaultHazardProfile "taxi_takeoff_roll_throttle_ratio" 0.65 =
        0.65 := rfl
    have h2 : thresholdOf defaultHazardProfile "taxi_takeoff_roll_ias_kt" 35.0 = 35 := by
      rw [show thresholdOf defaultHazardProfile "taxi_takeoff_roll_ias_kt" 35.0 = 35.0 from rfl]
      norm_num
    have h3 : thresholdOf defaultHazardProfile "taxi_takeoff_roll_gs_kt" 30.0 = 30 := by
      rw [show thresholdOf defaultHazardProfile "taxi_takeoff_roll_gs_kt" 30.0 = 30.0 from rfl]
      norm_num
    unfold isTakeoffGroundRoll
    dsimp only
    rw [h1, h2, h3]
    rcases hspd with h | h <;> simp [hthr, h]
  have hsupOut : ∀ (s : FlightSnapshot) (pstate : PhaseState), s.onGround = true →
      pstate.phase = .TAXI_OUT → throttleOf s ≥ 0.65 →
      (iasOf s ≥ 35 ∨ gsKtOf s ≥ 30) →
      (hazardEvaluate defaultHazardProfile cd st s pstate).1 = [] := by
    intro s pstate hg hp hthr hspd
    exact hazardEvaluate_ground_no_monitor _ _ _ _ _ hg
      ((shouldMonitorTaxiSpeed_false_cases _ _ _ _ _ _).2.1 hp (hroll s hthr hspd))
  have hsupIn : ∀ (s : FlightSnapshot) (pstate : PhaseState), s.onGround = true →
      pstate.phase = .TAXI_IN → st.taxiInRolloutCleared = false →
      ¬(gsKtOf s ≤ 25 ∧ iasOf s ≤ 30) →
      (hazardEvaluate defaultHazardProfile cd st s pstate).1 = [] := by
    intro s pstate hg hp hcl hspd
    refine hazardEvaluate_ground_no_monitor _ _ _ _ _ hg
      ((shouldMonitorTaxiSpeed_false_cases _ _ _ _ _ _).2.2 hp hcl ?_)
    rw [hthrClrGs, hthrClrIas]
    exact hspd
  refine ⟨?_, fun hg hp h1 h2 => hsupOut snap ps hg hp h1 h2,
    fun hg hp h1 h2 => hsupIn snap ps hg hp h1 h2, fun hcl => ?_⟩
  · intro a ha hid
    by_cases hg : snap.onGround = true
    · refine ⟨hg, ?_, ?_⟩
      · by_cases hm : (shouldMonitorTaxiSpeed defaultHazardProfile st.taxiInRolloutCleared
            snap ps (gsKtOf snap) (iasOf snap)).1 = true
        · exact shouldMonitorTaxiSpeed_true_phase _ _ _ _ _ _ hm
        · rw [hazardEvaluate_ground_no_monitor _ _ _ _ _ hg
            (Bool.not_eq_true _ ▸ Bool.of_not_eq_true hm)] at ha
          cases ha
      · by_cases hm : (shouldMonitorTaxiSpeed defaultHazardProfile st.taxiInRolloutCleared
            snap ps (gsKtOf snap) (iasOf snap)).1 = true
        · by_cases hspd : gsKtOf snap > 30 ∨ iasOf snap > 35
          · exact hspd
          · exfalso
            revert ha
            unfold hazardEvaluate
            dsimp only
            rw [hg]
            simp only [henabled, if_true, if_pos rfl]
            rw [monitorAbsorb_cleared st snap hg, hm]
            simp only [Bool.not_true, Bool.false_eq_true, if_false]
            rw [hthrGs, hthrIas, if_neg hspd]
            intro ha
            cases ha
        · rw [hazardEvaluate_ground_no_monitor _ _ _ _ _ hg
            (Bool.not_eq_true _ ▸ Bool.of_not_eq_true hm)] at ha
          cases ha
    · exfalso
      revert ha
      unfold hazardEvaluate
      dsimp only
      have hg2 : snap.onGround = false := by
        cases hon : snap.onGround
        · rfl
        · exact absurd hon hg
      rw [hg2]
      simp only [Bool.false_eq_true, if_false]
      intro ha
      rcases mem_hazardFire_if _ _ _ _ _ _ _ _ _ ha with ha | hid2
      · rcases mem_hazardFire_if _ _ _ _ _ _ _ _ _ ha with ha | hid2
        · rcases mem_hazardFire_if _ _ _ _ _ _ _ _ _ ha with ha | hid2
          · rcases mem_hazardFire_if _ _ _ _ _ _ _ _ _ ha with ha | hid2
            · rcases mem_hazardFire_if _ _ _ _ _ _ _ _ _ ha with ha | hid2
              · cases ha
              · rw [hid2] at hid
                exact absurd hid (by decide)
            · rw [hid2] at hid
              exact absurd hid (by decide)
          · rw [hid2] at hid
            exact absurd hid (by decide)
        · rw [hid2] at hid
          exact absurd hid (by decide)
      · rw [hid2] at hid
        exact absurd hid (by decide)
  · rcases hph : ps.phase with p1 | p1 | p1 | p1 | p1 | p1 | p1 | p1 | p1
    all_goals first
    | exact hsupOut _ ps rfl hph (by norm_num [throttleOf]) (Or.inl (by norm_num [iasOf]))
    | exact hsupIn _ ps rfl hph hcl (by
        intro hcon
        have := hcon.1
        norm_num [gsKtOf] at this)
    | exact hazardEvaluate_ground_no_monitor _ _ _ _ _ rfl
        ((shouldMonitorTaxiSpeed_false_cases _ _ _ _ _ _).1 (by rw [hph]; rintro (h | h) <;> cases h))

/-- Witness for C8 at the S2 snapshot: in phase TAXI_OUT from the fresh
monitor state, the 19 m/s / IAS 44 / throttle 0.9 snapshot fires no
alert. -/
theorem taxi_speed_alert_gating_witness :
    (hazardEvaluate defaultHazardProfile 8 {}
      { timestampSec := 0, onGround := true, groundspeedMS := some 19,
        indicatedAirspeedKt := some 44, throttle := some 0.9 }
      { phase := .TAXI_OUT, confidence := 1, changed := false, previousPhase := none }).1 =
      [] :=
  (taxi_speed_alert_gating 8 0 {} default
    { phase := .TAXI_OUT, confidence := 1, changed := false, previousPhase := none }).2.2.2
    rfl

/-- The airborne latch is ored in on every processed tick. -/
theorem shutdownStep_saw (dwell : ℚ) (s : ShutdownState)
    (x : FlightSnapshot × FlightPhase) :
    (shutdownStep dwell s x).sawAirborne = (s.sawAirborne || airborneTick x.2 x.1) := by
  unfold shutdownStep
  dsimp only
  repeat' split
  all_goals rfl

/-- Step equation: an already-emitted state only updates the latch. -/
theorem shutdownStep_eq_emitted (dwell : ℚ) (s : ShutdownState)
    (x : FlightSnapshot × FlightPhase) (h : s.emitted = true) :
    shutdownStep dwell s x =
      { sawAirborne := s.sawAirborne || airborneTick x.2 x.1
        candidateSince := s.candidateSince, emitted := s.emitted } := by
  unfold shutdownStep
  dsimp only
  rw [if_pos h, h]

/-- Step equation: before airborne was ever seen nothing happens. -/
theorem shutdownStep_eq_noair (dwell : ℚ) (s : ShutdownState)
    (x : FlightSnapshot × FlightPhase) (h : s.emitted = false)
    (hsaw : (s.sawAirborne || airborneTick x.2 x.1) = false) :
    shutdownStep dwell s x =
      { sawAirborne := false, candidateSince := s.candidateSince, emitted := false } := by
  unfold shutdownStep
  dsimp only
  rw [h, hsaw]
  rfl

/-- Step equation: a non-candidate tick clears the dwell anchor. -/
theorem shutdownStep_eq_nocand (dwell : ℚ) (s : ShutdownState)
    (x : FlightSnapshot × FlightPhase) (h : s.emitted = false)
    (hsaw : (s.sawAirborne || airborneTick x.2 x.1) = true)
    (hc : isShutdownCandidate x.2 x.1 = false) :
    shutdownStep dwell s x =
      { sawAirborne := true, candidateSince := none, emitted := false } := by
  unfold shutdownStep
  dsimp only
  rw [h, hsaw, hc]
  rfl

/-- Step equation: the first candidate tick starts the dwell timer. -/
theorem shutdownStep_eq_start (dwell : ℚ) (s : ShutdownState)
    (x : FlightSnapshot × FlightPhase) (h : s.emitted = false)
    (hsaw : (s.sawAirborne || airborneTick x.2 x.1) = true)
    (hc : isShutdownCandidate x.2 x.1 = true)
    (hs : s.candidateSince = none) :
    shutdownStep dwell s x =
      { sawAirborne := true, candidateSince := some x.1.timestampSec, emitted := false } := by
  unfold shutdownStep
  dsimp only
  rw [h, hsaw, hc, hs]
  rfl

/-- Step equation: a candidate tick still inside the dwell waits. -/
theorem shutdownStep_eq_wait (dwell : ℚ) (s : ShutdownState)
    (x : FlightSnapshot × FlightPhase) (t0 : ℚ) (h : s.emitted = false)
    (hsaw : (s.sawAirborne || airborneTick x.2 x.1) = true)
    (hc : isShutdownCandidate x.2 x.1 = true)
    (hs : s.candidateSince = some t0) (hd : x.1.timestampSec - t0 < dwell) :
    shutdownStep dwell s x =
      { sawAirborne := true, candidateSince := some t0, emitted := false } := by
  unfold shutdownStep
  dsimp only
  rw [h, hsaw, hc, hs]
  dsimp only
  rw [if_pos hd]
  simp

/-- Step equation: a candidate tick at or past the dwell emits. -/
theorem shutdownStep_eq_emit (dwell : ℚ) (s : ShutdownState)
    (x : FlightSnapshot × FlightPhase) (t0 : ℚ) (h : s.emitted = false)
    (hsaw : (s.sawAirborne || airborneTick x.2 x.1) = true)
    (hc : isShutdownCandidate x.2 x.1 = true)
    (hs : s.candidateSince = some t0) (hd : ¬(x.1.timestampSec - t0 < dwell)) :
    shutdownStep dwell s x =
      { sawAirborne := true, candidateSince := some t0, emitted := true } := by
  unfold shutdownStep
  dsimp only
  rw [h, hsaw, hc, hs]
  dsimp only
  rw [if_neg hd]
  simp

/-- Ticks below the old length are unchanged by appending. -/
theorem tickAt_append_lt (l : List (FlightSnapshot × FlightPhase))
    (x : FlightSnapshot × FlightPhase) (k : ℕ) (h : k < l.length) :
    tickAt (l ++ [x]) k = tickAt l k := by
  unfold tickAt
  exact List.getD_append l [x] _ k h

/-- The appended tick sits at the old length. -/
theorem tickAt_append_self (l : List (FlightSnapshot × FlightPhase))
    (x : FlightSnapshot × FlightPhase) :
    tickAt (l ++ [x]) l.length = x := by
  unfold tickAt
  rw [List.getD_append_right l [x] _ l.length (le_refl _)]
  simp

/-- Processing one more tick preserves an already-satisfied dwell
condition. -/
theorem shutdownHeldFor_mono (dwell : ℚ) (l : List (FlightSnapshot × FlightPhase))
    (x : FlightSnapshot × FlightPhase) (h : shutdownHeldFor dwell l) :
    shutdownHeldFor dwell (l ++ [x]) := by
  obtain ⟨i, j, hji, hil, hair, hcand, hdw⟩ := h
  obtain ⟨k, hkj, hk⟩ := hair
  refine ⟨i, j, hji, by simp; omega, ⟨k, hkj, ?_⟩, ?_, ?_⟩
  · rwa [tickAt_append_lt l x k (by omega)]
  · intro m hjm hmi
    rw [tickAt_append_lt l x m (by omega)]
    exact hcand m hjm hmi
  · rwa [tickAt_append_lt l x i hil, tickAt_append_lt l x j (by omega)]

/-- Appending to the fold. -/
theorem runShutdown_append (dwell : ℚ) (s : ShutdownState)
    (l : List (FlightSnapshot × FlightPhase)) (x : FlightSnapshot × FlightPhase) :
    runShutdown dwell s (l ++ [x]) = shutdownStep dwell (runShutdown dwell s l) x := by
  simp [runShutdown, List.foldl_append]

/-- A dwell window in an extended trace lies in the prefix or ends at the
appended tick. -/
theorem heldFor_append_cases (dwell : ℚ) (l : List (FlightSnapshot × FlightPhase))
    (x : FlightSnapshot × FlightPhase) (h : shutdownHeldFor dwell (l ++ [x])) :
    shutdownHeldFor dwell l ∨
    (isShutdownCandidate x.2 x.1 = true ∧
      ∃ j, j < l.length ∧
        (∀ m, j ≤ m → m < l.length →
          isShutdownCandidate (tickAt l m).2 (tickAt l m).1 = true) ∧
        (∃ k, k ≤ j ∧ airborneTick (tickAt l k).2 (tickAt l k).1 = true) ∧
        dwell ≤ x.1.timestampSec - (tickAt l j).1.timestampSec) := by
  obtain ⟨i, j, hji, hil, ⟨k, hkj, hk⟩, hcand, hdw⟩ := h
  simp only [List.length_append, List.length_cons, List.length_nil] at hil
  rcases Nat.lt_or_ge i l.length with hin | hin
  · left
    refine ⟨i, j, hji, hin, ⟨k, hkj, ?_⟩, ?_, ?_⟩
    · rwa [tickAt_append_lt l x k (by omega)] at hk
    · intro m hjm hmi
      have := hcand m hjm hmi
      rwa [tickAt_append_lt l x m (by omega)] at this
    · rwa [tickAt_append_lt l x i hin, tickAt_append_lt l x j (by omega)] at hdw
  · have hieq : i = l.length := by omega
    subst hieq
    right
    have hC : isShutdownCandidate x.2 x.1 = true := by
      have := hcand l.length (by omega) (le_refl _)
      rwa [tickAt_append_self] at this
    refine ⟨hC, j, by omega, ?_, ⟨k, hkj, ?_⟩, ?_⟩
    · intro m hjm hmi
      have := hcand m hjm (by omega)
      rwa [tickAt_append_lt l x m hmi] at this
    · rwa [tickAt_append_lt l x k (by omega)] at hk
    · rwa [tickAt_append_self, tickAt_append_lt l x j (by omega)] at hdw

/-- The master invariant of the shutdown-detection pipeline, over traces
with strictly increasing timestamps (the runtime's
`snapshot.timestamp_sec > self._last_snapshot_ts` guard): the airborne
latch records whether an airborne tick occurred, `emitted` holds exactly
when some all-candidate window of span at least the dwell has been
processed, and the dwell anchor is sound and minimal for the current
candidate run. -/
theorem runShutdown_invariant (dwell : ℚ) (ticks : List (FlightSnapshot × FlightPhase))
    (hmono : ∀ i j, i < j → j < ticks.length →
      (tickAt ticks i).1.timestampSec < (tickAt ticks j).1.timestampSec) :
    ((runShutdown dwell initShutdownState ticks).sawAirborne = true ↔
      ∃ k, k < ticks.length ∧
        airborneTick (tickAt ticks k).2 (tickAt ticks k).1 = true) ∧
    ((runShutdown dwell initShutdownState ticks).emitted = true ↔
      shutdownHeldFor dwell ticks) ∧
    ((runShutdown dwell initShutdownState ticks).sawAirborne = false →
      (runShutdown dwell initShutdownState ticks).candidateSince = none) ∧
    ((runShutdown dwell initShutdownState ticks).emitted = false →
      ∀ t, (runShutdown dwell initShutdownState ticks).candidateSince = some t →
        ∃ j, j < ticks.length ∧ t = (tickAt ticks j).1.timestampSec ∧
          (∀ m, j ≤ m → m < ticks.length →
            isShutdownCandidate (tickAt ticks m).2 (tickAt ticks m).1 = true) ∧
          (∃ k, k ≤ j ∧ airborneTick (tickAt ticks k).2 (tickAt ticks k).1 = true)) ∧
    ((runShutdown dwell initShutdownState ticks).emitted = false →
      ∀ j, j < ticks.length →
        (∀ m, j ≤ m → m < ticks.length →
          isShutdownCandidate (tickAt ticks m).2 (tickAt ticks m).1 = true) →
        (∃ k, k ≤ j ∧ airborneTick (tickAt ticks k).2 (tickAt ticks k).1 = true) →
        ∃ t, (runShutdown dwell initShutdownState ticks).candidateSince = some t ∧
          t ≤ (tickAt ticks j).1.timestampSec) := by
  revert hmono
  induction ticks using List.reverseRecOn with
  | nil =>
    intro hmono
    refine ⟨by simp [runShutdown, initShutdownState], ?_, ?_, ?_, ?_⟩
    · constructor
      · intro h
        simp [runShutdown, initShutdownState] at h
      · rintro ⟨i, j, hji, hil, -⟩
        simp at hil
    · intro _
      rfl
    · intro _ t ht
      simp [runShutdown, initShutdownState] at ht
    · intro _ j hj
      simp at hj
  | append_singleton l x ih =>
    intro hmono
    have hmono' : ∀ i j, i < j → j < l.length →
        (tickAt l i).1.timestampSec < (tickAt l j).1.timestampSec := by
      intro i j hij hj
      have := hmono i j hij (by simp; omega)
      rwa [tickAt_append_lt l x i (by omega), tickAt_append_lt l x j hj] at this
    have ihs := ih hmono'
    have hrun := runShutdown_append dwell initShutdownState l x
    have hlen : (l ++ [x]).length = l.length + 1 := by simp
    set s := runShutdown dwell initShutdownState l with hs
    have hI1 : (s.sawAirborne || airborneTick x.2 x.1) = true ↔
        ∃ k, k < (l ++ [x]).length ∧
          airborneTick (tickAt (l ++ [x]) k).2 (tickAt (l ++ [x]) k).1 = true := by
      constructor
      · intro h
        rcases Bool.or_eq_true_iff.mp h with h | h
        · obtain ⟨k, hk, hair⟩ := ihs.1.mp h
          refine ⟨k, by simp; omega, ?_⟩
          rwa [tickAt_append_lt l x k hk]
        · refine ⟨l.length, by simp, ?_⟩
          rwa [tickAt_append_self]
      · rintro ⟨k, hk, hair⟩
        simp only [List.length_append, List.length_cons, List.length_nil] at hk
        rcases Nat.lt_or_ge k l.length with hkn | hkn
        · rw [tickAt_append_lt l x k hkn] at hair
          rw [ihs.1.mpr ⟨k, hkn, hair⟩]
          simp
        · have : k = l.length := by omega
          subst this
          rw [tickAt_append_self] at hair
          rw [hair]
          simp
    by_cases hem : s.emitted = true
    · rw [hrun, shutdownStep_eq_emitted dwell s x hem]
      refine ⟨hI1, ?_, ?_, ?_, ?_⟩
      · constructor
        · intro _
          exact shutdownHeldFor_mono dwell l x (ihs.2.1.mp hem)
        · intro _
          exact hem
      · intro h
        have hsf : s.sawAirborne = false := by
          rcases Bool.or_eq_false_iff.mp h with ⟨h1, h2⟩
          exact h1
        exact ihs.2.2.1 hsf
      · intro h
        rw [hem] at h
        cases h
      · intro h
        rw [hem] at h
        cases h
    · have hem' : s.emitted = false := by
        cases hse : s.emitted
        · rfl
        · exact absurd hse hem
      by_cases hsaw2 : (s.sawAirborne || airborneTick x.2 x.1) = true
      · by_cases hC : isShutdownCandidate x.2 x.1 = true
        · cases hs0 : s.candidateSince with
          | none =>
            rw [hrun, shutdownStep_eq_start dwell s x hem' hsaw2 hC hs0]
            refine ⟨by have h1 := hI1; rw [hsaw2] at h1; exact h1, ?_, ?_, ?_, ?_⟩
            · constructor
              · intro h
                cases h
              · intro hq
                exfalso
                rcases heldFor_append_cases dwell l x hq with hq | ⟨-, j, hj, hcand, hair, -⟩
                · rw [ihs.2.1.mpr hq] at hem'
                  cases hem'
                · obtain ⟨t, hts, -⟩ := ihs.2.2.2.2 hem' j hj hcand hair
                  rw [hs0] at hts
                  cases hts
            · intro h
              cases h
            · intro _ t ht
              injection ht with ht
              subst ht
              refine ⟨l.length, by simp, by rw [tickAt_append_self], ?_, ?_⟩
              · intro m hm1 hm2
                simp only [List.length_append, List.length_cons, List.length_nil] at hm2
                have : m = l.length := by omega
                subst this
                rwa [tickAt_append_self]
              · obtain ⟨k, hk, hair⟩ := hI1.mp hsaw2
                simp only [List.length_append, List.length_cons, List.length_nil] at hk
                exact ⟨k, by omega, hair⟩
            · intro _ j hj hcand hair
              simp only [List.length_append, List.length_cons, List.length_nil] at hj
              rcases Nat.lt_or_ge j l.length with hjn | hjn
              · exfalso
                obtain ⟨k, hkj, hk⟩ := hair
                obtain ⟨t, hts, -⟩ := ihs.2.2.2.2 hem' j hjn
                  (fun m hm1 hm2 => by
                    have := hcand m hm1 (by omega)
                    rwa [tickAt_append_lt l x m hm2] at this)
                  ⟨k, hkj, by
                    have := hk
                    rwa [tickAt_append_lt l x k (by omega)] at this⟩
                rw [hs0] at hts
                cases hts
              · have : j = l.length := by omega
                subst this
                exact ⟨x.1.timestampSec, rfl, by rw [tickAt_append_self]⟩
          | some t0 =>
            by_cases hd : x.1.timestampSec - t0 < dwell
            · rw [hrun, shutdownStep_eq_wait dwell s x t0 hem' hsaw2 hC hs0 hd]
              obtain ⟨j0, hj0, ht0, hcand0, hair0⟩ := ihs.2.2.2.1 hem' t0 hs0
              refine ⟨by have h1 := hI1; rw [hsaw2] at h1; exact h1, ?_, ?_, ?_, ?_⟩
              · constructor
                · intro h
                  cases h
                · intro hq
                  exfalso
                  rcases heldFor_append_cases dwell l x hq with hq | ⟨-, j, hj, hcand, hair, hdw⟩
                  · rw [ihs.2.1.mpr hq] at hem'
                    cases hem'
                  · obtain ⟨t, hts, htle⟩ := ihs.2.2.2.2 hem' j hj hcand hair
                    rw [hs0] at hts
                    injection hts with hts
                    subst hts
                    have : dwell ≤ x.1.timestampSec - t0 := le_trans hdw (by linarith)
                    exact absurd this (by linarith)
              · intro h
                cases h
              · intro _ t ht
                injection ht with ht
                subst ht
                refine ⟨j0, by simp; omega, ?_, ?_, ?_⟩
                · rwa [tickAt_append_lt l x j0 hj0]
                · intro m hm1 hm2
                  simp only [List.length_append, List.length_cons, List.length_nil] at hm2
                  rcases Nat.lt_or_ge m l.length with hmn | hmn
                  · rw [tickAt_append_lt l x m hmn]
                    exact hcand0 m hm1 hmn
                  · have : m = l.length := by omega
                    subst this
                    rwa [tickAt_append_self]
                · obtain ⟨k, hk1, hk2⟩ := hair0
                  exact ⟨k, hk1, by rwa [tickAt_append_lt l x k (by omega)]⟩
              · intro _ j hj hcand hair
                simp only [List.length_append, List.length_cons, List.length_nil] at hj
                rcases Nat.lt_or_ge j l.length with hjn | hjn
                · obtain ⟨k, hkj, hk⟩ := hair
                  obtain ⟨t, hts, htle⟩ := ihs.2.2.2.2 hem' j hjn
                    (fun m hm1 hm2 => by
                      have := hcand m hm1 (by omega)
                      rwa [tickAt_append_lt l x m hm2] at this)
                    ⟨k, hkj, by
                      have := hk
                      rwa [tickAt_append_lt l x k (by omega)] at this⟩
                  rw [hs0] at hts
                  injection hts with hts
                  subst hts
                  exact ⟨t0, rfl, by rwa [tickAt_append_lt l x j hjn]⟩
                · have : j = l.length := by omega
                  subst this
                  refine ⟨t0, rfl, ?_⟩
                  rw [tickAt_append_self]
                  rw [ht0]
                  have := hmono j0 l.length (by omega) (by simp)
                  rw [tickAt_append_lt l x j0 hj0, tickAt_append_self] at this
                  linarith
            · rw [hrun, shutdownStep_eq_emit dwell s x t0 hem' hsaw2 hC hs0 hd]
              obtain ⟨j0, hj0, ht0, hcand0, hair0⟩ := ihs.2.2.2.1 hem' t0 hs0
              refine ⟨by have h1 := hI1; rw [hsaw2] at h1; exact h1, ?_, ?_, ?_, ?_⟩
              · constructor
                · intro _
                  refine ⟨l.length, j0, hj0, by omega, ?_, ?_, ?_⟩
                  · obtain ⟨k, hk1, hk2⟩ := hair0
                    exact ⟨k, hk1, by rwa [tickAt_append_lt l x k (by omega)]⟩
                  · intro m hm1 hm2
                    rcases Nat.lt_or_ge m l.length with hmn | hmn
                    · rw [tickAt_append_lt l x m hmn]
                      exact hcand0 m hm1 hmn
                    · have : m = l.length := by omega
                      subst this
                      rwa [tickAt_append_self]
                  · rw [tickAt_append_self, tickAt_append_lt l x j0 hj0, ← ht0]
                    linarith
                · intro _
                  rfl
              · intro h
                cases h
              · intro h
                cases h
              · intro h
                cases h
        · have hCf : isShutdownCandidate x.2 x.1 = false := by
            cases hcc : isShutdownCandidate x.2 x.1
            · rfl
            · exact absurd hcc hC
          rw [hrun, shutdownStep_eq_nocand dwell s x hem' hsaw2 hCf]
          refine ⟨by have h1 := hI1; rw [hsaw2] at h1; exact h1, ?_, ?_, ?_, ?_⟩
          · constructor
            · intro h
              cases h
            · intro hq
              exfalso
              rcases heldFor_append_cases dwell l x hq with hq | ⟨hCt, -⟩
              · rw [ihs.2.1.mpr hq] at hem'
                cases hem'
              · rw [hCt] at hCf
                cases hCf
          · intro _
            rfl
          · intro _ t ht
            cases ht
          · intro _ j hj hcand hair
            exfalso
            simp only [List.length_append, List.length_cons, List.length_nil] at hj
            have := hcand l.length (by omega) (by simp)
            rw [tickAt_append_self] at this
            rw [this] at hCf
            cases hCf
      · have hsawf : (s.sawAirborne || airborneTick x.2 x.1) = false := by
          cases hbb : (s.sawAirborne || airborneTick x.2 x.1)
          · rfl
          · exact absurd hbb hsaw2
        obtain ⟨hs1, hs2⟩ := Bool.or_eq_false_iff.mp hsawf
        have hsince : s.candidateSince = none := ihs.2.2.1 hs1
        rw [hrun, shutdownStep_eq_noair dwell s x hem' hsawf]
        refine ⟨by have h1 := hI1; rw [hsawf] at h1; exact h1, ?_, ?_, ?_, ?_⟩
        · constructor
          · intro h
            cases h
          · intro hq
            exfalso
            obtain ⟨i, j, hji, hil, ⟨k, hkj, hk⟩, hcand, hdw⟩ := hq
            simp only [List.length_append, List.length_cons, List.length_nil] at hil
            rcases Nat.lt_or_ge k l.length with hkn | hkn
            · rw [tickAt_append_lt l x k hkn] at hk
              rw [ihs.1.mpr ⟨k, hkn, hk⟩] at hs1
              cases hs1
            · have : k = l.length := by omega
              subst this
              rw [tickAt_append_self] at hk
              rw [hk] at hs2
              cases hs2
        · intro _
          rw [hsince]
        · intro _ t ht
          rw [hsince] at ht
          cases ht
        · intro _ j hj hcand hair
          exfalso
          obtain ⟨k, hkj, hk⟩ := hair
          simp only [List.length_append, List.length_cons, List.length_nil] at hj
          rcases Nat.lt_or_ge k l.length with hkn | hkn
          · rw [tickAt_append_lt l x k hkn] at hk
            rw [ihs.1.mpr ⟨k, hkn, hk⟩] at hs1
            cases hs1
          · have : k = l.length := by omega
            subst this
            rw [tickAt_append_self] at hk
            rw [hk] at hs2
            cases hs2

/-- Claim C3: over any processed trace with strictly increasing snapshot
timestamps (the runtime's `timestamp_sec > last` guard), a shutdown debrief
is emitted iff all shutdown preconditions — airborne seen by the start of
the window, and every tick of the window a shutdown candidate (on ground,
phase TAXI_IN or PREFLIGHT, slow, idle, engines off / low rpm / parked) —
hold continuously over a window spanning at least
`shutdown_detect_dwell_sec`. -/
theorem shutdown_debrief_iff (dwellSec : ℚ)
    (ticks : List (FlightSnapshot × FlightPhase))
    (hmono : ∀ i j, i < j → j < ticks.length →
      (tickAt ticks i).1.timestampSec < (tickAt ticks j).1.timestampSec) :
    (runShutdown dwellSec initShutdownState ticks).emitted = true ↔
      shutdownHeldFor dwellSec ticks :=
  (runShutdown_invariant dwellSec ticks hmono).2.1

/-- Witness for C3: an airborne tick at t=0 followed by shutdown-candidate
ticks at t=10 and t=20 (dwell 8 s) emits the debrief. -/
theorem shutdown_debrief_iff_witness :
    (runShutdown 8 initShutdownState
      [({ timestampSec := 0 }, FlightPhase.CRUISE),
       ({ timestampSec := 10, onGround := true, engineRunning := some false },
         FlightPhase.TAXI_IN),
       ({ timestampSec := 20, onGround := true, engineRunning := some false },
         FlightPhase.TAXI_IN)]).emitted = true := by
  refine (shutdown_debrief_iff 8 _ ?_).mpr ?_
  · intro i j hij hj
    simp only [List.length_cons, List.length_nil] at hj
    interval_cases j <;> interval_cases i <;> norm_num [tickAt]
  · refine ⟨2, 1, by omega, by simp, ⟨0, by omega, by decide⟩, ?_, ?_⟩
    · intro m h1 h2
      interval_cases m <;>
        norm_num [tickAt, isShutdownCandidate, gsKtOf, iasOf, throttleOf, parkOf]
    · norm_num [tickAt]

/-- From a fresh tracker, the first processed snapshot cannot confirm a
phase change: every default dwell is positive and the candidate dwell is
zero. -/
theorem trackerUpdate_init_phase (snap : FlightSnapshot) :
    (trackerUpdate defaultMinDwellSec initTrackerState snap).2.phase = .PREFLIGHT := by
  have hdwell : dwellElapsed initTrackerState snap = 0 := by
    unfold dwellElapsed trackerMid trackerAbsorb initTrackerState
    dsimp only
    rw [if_pos (by norm_num : (0.0 : ℚ) ≤ 0)]
    split_ifs <;> simp
  have hreq : 0 < defaultMinDwellSec (candidateOf initTrackerState snap) := by
    cases (candidateOf initTrackerState snap) <;> norm_num [defaultMinDwellSec]
  unfold trackerUpdate
  rw [if_neg (fun h => absurd h.2 (by rw [hdwell]; exact not_le.mpr hreq))]
  exact trackerMid_phase initTrackerState snap

/-- Claim C5: once a shutdown debrief has been emitted, the first processed
snapshot satisfying the new-flight-activity predicate increments
`flight_index` and resets the cycle state — the new flight starts with
phase PREFLIGHT and a session buffer holding only that snapshot; snapshots
without activity change nothing, and no flight-cycle start ever occurs
before a shutdown debrief was emitted. -/
theorem flight_cycle_reset (dwellSec : ℚ) (st : RuntimeState) (snap : FlightSnapshot) :
    (st.shutdownDebriefEmitted = true → isNewFlightActivity snap = true →
      maybeStartNewFlightCycle st snap =
        { tracker := initTrackerState, phaseState := initPhaseState,
          sessionSnapshots := [], sawAirborne := false, shutdownCandidateSince := none,
          shutdownDebriefEmitted := false, flightIndex := st.flightIndex + 1 } ∧
      (processSnapshot dwellSec st snap).flightIndex = st.flightIndex + 1 ∧
      (processSnapshot dwellSec st snap).sessionSnapshots = [snap] ∧
      (processSnapshot dwellSec st snap).phaseState.phase = FlightPhase.PREFLIGHT) ∧
    (st.shutdownDebriefEmitted = false →
      maybeStartNewFlightCycle st snap = st ∧
      (processSnapshot dwellSec st snap).flightIndex = st.flightIndex) ∧
    (st.shutdownDebriefEmitted = true → isNewFlightActivity snap = false →
      maybeStartNewFlightCycle st snap = st) := by
  refine ⟨fun hem hact => ?_, fun hem => ?_, fun hem hact => ?_⟩
  · have hcycle : maybeStartNewFlightCycle st snap =
        { tracker := initTrackerState, phaseState := initPhaseState,
          sessionSnapshots := [], sawAirborne := false, shutdownCandidateSince := none,
          shutdownDebriefEmitted := false, flightIndex := st.flightIndex + 1 } := by
      unfold maybeStartNewFlightCycle
      rw [hem, hact]
      rfl
    refine ⟨hcycle, ?_, ?_, ?_⟩
    · unfold processSnapshot
      rw [hcycle]
    · unfold processSnapshot
      rw [hcycle]
      dsimp only
      rw [if_neg (by norm_num)]
      simp
    · unfold processSnapshot
      rw [hcycle]
      dsimp only
      exact trackerUpdate_init_phase snap
  · have hcycle : maybeStartNewFlightCycle st snap = st := by
      unfold maybeStartNewFlightCycle
      rw [hem]
      rfl
    refine ⟨hcycle, ?_⟩
    unfold processSnapshot
    rw [hcycle]
  · unfold maybeStartNewFlightCycle
    rw [hem, hact]
    rfl

/-- Witness for C5: with a shutdown debrief emitted on flight 1, an
airborne snapshot starts flight 2 with phase PREFLIGHT and a fresh session
buffer. -/
theorem flight_cycle_reset_witness :
    (processSnapshot 8 { initRuntimeState with shutdownDebriefEmitted := true }
        { timestampSec := 5 }).flightIndex = 2 ∧
    (processSnapshot 8 { initRuntimeState with shutdownDebriefEmitted := true }
        { timestampSec := 5 }).sessionSnapshots = [{ timestampSec := 5 }] ∧
    (processSnapshot 8 { initRuntimeState with shutdownDebriefEmitted := true }
        { timestampSec := 5 }).phaseState.phase = FlightPhase.PREFLIGHT := by
  obtain ⟨-, h1, h2, h3⟩ :=
    (flight_cycle_reset 8 { initRuntimeState with shutdownDebriefEmitted := true }
      { timestampSec := 5 }).1 rfl (by decide)
  exact ⟨h1, h2, h3⟩

end CfiAi
